import Mathlib

/-!
Formal model of the hiking-route recommendation engine.

The definitions below are a shallow embedding of the TypeScript sources:
JavaScript numbers are modelled as real numbers, `NaN` results as `none` of
an `Option`, and the JavaScript falsy-coalescing operator `x || d` by
explicit helper functions.  Function and constant names follow the source
(`calculateTripCost`, `normalizeMatrix`, `findIdealSolutions`, ...).
-/

open Classical

noncomputable section

/-! ## JavaScript semantics helpers -/

/-- Model of `x || d` for a possibly-undefined JavaScript number:
`undefined` and `0` are falsy and fall back to the default. -/
def jsOrNum (o : Option ℝ) (d : ℝ) : ℝ :=
  match o with
  | some x => if x = 0 then d else x
  | none => d

/-- Model of `b || d` for a possibly-undefined JavaScript boolean. -/
def jsOrBool (o : Option Bool) (d : Bool) : Bool :=
  match o with
  | some b => b || d
  | none => d

/-- Model of `s || d` for a JavaScript string: the empty string is falsy. -/
def jsOrString (s d : String) : String :=
  if s = "" then d else s

/-- Model of `String.prototype.toLowerCase` (character-wise lowering; the
built-in `String.toLower` is extensionally the same but does not reduce
inside the kernel). -/
def jsToLower (s : String) : String := ⟨s.data.map Char.toLower⟩

/-- Model of `String.prototype.trim`: drop whitespace on both ends. -/
def jsTrim (s : String) : String :=
  ⟨((s.data.dropWhile Char.isWhitespace).reverse.dropWhile Char.isWhitespace).reverse⟩

/-- Model of `s.split(',')[0]`: the prefix before the first comma. -/
def jsSplitCommaHead (s : String) : String :=
  ⟨s.data.takeWhile (fun c => c ≠ ',')⟩

/-- Model of `Math.round`: round half up. -/
def jsRound (x : ℝ) : ℝ := (⌊x + 1 / 2⌋ : ℤ)

/-- Model of `Math.ceil`. -/
def jsCeil (x : ℝ) : ℝ := (⌈x⌉ : ℤ)

/-- Model of `Math.max(...values)` applied to a spread list
(the `[]` case, `-Infinity` in JavaScript, is outside the model and mapped
to `0`; every use in the source spreads a non-empty list). -/
def listMax : List ℝ → ℝ
  | [] => 0
  | x :: xs => xs.foldl max x

/-- Model of `Math.min(...values)` applied to a spread list. -/
def listMin : List ℝ → ℝ
  | [] => 0
  | x :: xs => xs.foldl min x

/-- Model of `Math.atan2`. -/
def jsAtan2 (y x : ℝ) : ℝ :=
  if 0 < x then Real.arctan (y / x)
  else if x < 0 then
    (if 0 ≤ y then Real.arctan (y / x) + Real.pi else Real.arctan (y / x) - Real.pi)
  else
    (if 0 < y then Real.pi / 2 else if y < 0 then -(Real.pi / 2) else 0)

/-! ## `distance.util.ts` -/

/-- Geographic coordinates (`Coordinates` in `distance.util.ts`). -/
structure Coordinates where
  latitude : ℝ
  longitude : ℝ

/-- Conversion from degrees to radians (`toRadians`). -/
def toRadians (degrees : ℝ) : ℝ := degrees * (Real.pi / 180)

/-- Haversine great-circle distance (`haversineDistance`). -/
def haversineDistance (coord1 coord2 : Coordinates) : ℝ :=
  let R : ℝ := 6371
  let lat1Rad := toRadians coord1.latitude
  let lat2Rad := toRadians coord2.latitude
  let deltaLatRad := toRadians (coord2.latitude - coord1.latitude)
  let deltaLonRad := toRadians (coord2.longitude - coord1.longitude)
  let a := Real.sin (deltaLatRad / 2) * Real.sin (deltaLatRad / 2) +
      Real.cos lat1Rad * Real.cos lat2Rad *
      Real.sin (deltaLonRad / 2) * Real.sin (deltaLonRad / 2)
  let c := 2 * jsAtan2 (Real.sqrt a) (Real.sqrt (1 - a))
  R * c

/-- Coordinate lookup table (`LOCATION_COORDINATES`); a record lookup with a
missing key yields `undefined`, modelled by `none`. -/
def LOCATION_COORDINATES (key : String) : Option Coordinates :=
  if key = "jakarta" then some ⟨-6.2088, 106.8456⟩
  else if key = "bandung" then some ⟨-6.9175, 107.6191⟩
  else if key = "yogyakarta" then some ⟨-7.7956, 110.3695⟩
  else if key = "surabaya" then some ⟨-7.2575, 112.7521⟩
  else if key = "bali" then some ⟨-8.4095, 115.1889⟩
  else if key = "lombok" then some ⟨-8.5069, 116.1944⟩
  else if key = "malang" then some ⟨-7.9666, 112.6326⟩
  else if key = "magelang" then some ⟨-7.4698, 110.2182⟩
  else none

/-- Transport distance between two named locations
(`calculateTransportDistance`): haversine over the lookup table with a
300 km fallback when either name is unknown. -/
def calculateTransportDistance (userLocation mountainLocation : String) : ℝ :=
  match LOCATION_COORDINATES (jsToLower userLocation),
      LOCATION_COORDINATES (jsToLower mountainLocation) with
  | some userCoords, some mountainCoords => haversineDistance userCoords mountainCoords
  | _, _ => 300

/-! ## `cost.service.ts` -/

/-- The three budget levels of `CostCalculationInput.budgetLevel`. -/
inductive BudgetLevel where
  | budget
  | standard
  | premium
deriving DecidableEq

/-- Input record of `calculateTripCost` (`CostCalculationInput`). -/
structure CostCalculationInput where
  userLocation : String
  mountainLocation : String
  routeDifficulty : String
  duration : ℝ
  groupSize : ℝ
  needsGuide : Bool
  needsEquipment : Bool
  budgetLevel : BudgetLevel

/-- Output record of `calculateTripCost` (`CostBreakdown`). -/
structure CostBreakdown where
  transportation : ℝ
  permits : ℝ
  guide : ℝ
  accommodation : ℝ
  meals : ℝ
  equipment : ℝ
  miscellaneous : ℝ
  total : ℝ

/-- Transportation cost (`calculateTransportationCost`). -/
def calculateTransportationCost (userLocation mountainLocation : String)
    (groupSize : ℝ) : ℝ :=
  let distance := calculateTransportDistance userLocation mountainLocation
  let motorCostPerPerson := (distance / 30) * 10000
  let publicTransportCost := 50000 + 500 * distance
  let costPerPerson := min motorCostPerPerson publicTransportCost
  if groupSize > 4 then
    min (costPerPerson * groupSize) (distance * 2000 + 300000)
  else
    costPerPerson * groupSize

/-- Permit cost (`calculatePermitCost`); the record lookup falls back to the
`default` rate for unknown regions. -/
def calculatePermitCost (mountainLocation routeDifficulty : String)
    (groupSize : ℝ) : ℝ :=
  let basePermit : ℝ :=
    if mountainLocation = "lombok" then 150000
    else if mountainLocation = "malang" then 200000
    else if mountainLocation = "magelang" then 100000
    else 120000
  let difficultyMultiplier : ℝ :=
    if routeDifficulty = "Easy" then 1.0
    else if routeDifficulty = "Moderate" then 1.2
    else if routeDifficulty = "Hard" then 1.5
    else if routeDifficulty = "Expert" then 2.0
    else 1.0
  basePermit * groupSize * difficultyMultiplier

/-- Guide cost (`calculateGuideCost`): zero unless a guide is needed. -/
def calculateGuideCost (routeDifficulty : String) (duration groupSize : ℝ)
    (needsGuide : Bool) : ℝ :=
  if !needsGuide then 0
  else
    let baseDailyRate : ℝ :=
      if routeDifficulty = "Easy" then 200000
      else if routeDifficulty = "Moderate" then 300000
      else if routeDifficulty = "Hard" then 400000
      else if routeDifficulty = "Expert" then 500000
      else 300000
    let guidesNeeded := jsCeil (groupSize / 4)
    baseDailyRate * duration * guidesNeeded

/-- Accommodation cost (`calculateAccommodationCost`):
`max 0 (duration - 1)` camping nights. -/
def calculateAccommodationCost (duration groupSize : ℝ)
    (budgetLevel : BudgetLevel) : ℝ :=
  let rate : ℝ :=
    match budgetLevel with
    | .budget => 75000
    | .standard => 150000
    | .premium => 300000
  let nightsNeeded := max 0 (duration - 1)
  rate * groupSize * nightsNeeded

/-- Meal cost (`calculateMealCost`). -/
def calculateMealCost (duration groupSize : ℝ) (budgetLevel : BudgetLevel) : ℝ :=
  let rate : ℝ :=
    match budgetLevel with
    | .budget => 50000
    | .standard => 75000
    | .premium => 125000
  rate * groupSize * duration

/-- Equipment rental cost (`calculateEquipmentCost`). -/
def calculateEquipmentCost (needsEquipment : Bool) (duration groupSize : ℝ)
    (routeDifficulty : String) : ℝ :=
  if !needsEquipment then 0
  else
    let baseEquipmentCostPerPerson : ℝ :=
      if routeDifficulty = "Easy" then 100000
      else if routeDifficulty = "Moderate" then 150000
      else if routeDifficulty = "Hard" then 200000
      else if routeDifficulty = "Expert" then 300000
      else 150000
    baseEquipmentCostPerPerson * groupSize * duration

/-- Main cost estimator (`calculateTripCost`): six categories, a 10 percent
miscellaneous buffer, every reported figure rounded. -/
def calculateTripCost (input : CostCalculationInput) : CostBreakdown :=
  let transportation := calculateTransportationCost input.userLocation
    input.mountainLocation input.groupSize
  let permits := calculatePermitCost input.mountainLocation
    input.routeDifficulty input.groupSize
  let guide := calculateGuideCost input.routeDifficulty input.duration
    input.groupSize input.needsGuide
  let accommodation := calculateAccommodationCost input.duration
    input.groupSize input.budgetLevel
  let meals := calculateMealCost input.duration input.groupSize
    input.budgetLevel
  let equipment := calculateEquipmentCost input.needsEquipment input.duration
    input.groupSize input.routeDifficulty
  let miscellaneous :=
    (transportation + permits + guide + accommodation + meals + equipment) * 0.1
  let total :=
    transportation + permits + guide + accommodation + meals + equipment +
      miscellaneous
  { transportation := jsRound transportation
    permits := jsRound permits
    guide := jsRound guide
    accommodation := jsRound accommodation
    meals := jsRound meals
    equipment := jsRound equipment
    miscellaneous := jsRound miscellaneous
    total := jsRound total }

/-! ## TOPSIS service: data model -/

/-- User preference record (`UserPreferences`). -/
structure UserPreferences where
  experience_level : String := ""
  fitness_level : ℝ := 5
  budget_range : String := ""
  time_commitment : String := ""
  location : String := ""
  group_size : ℝ := 2
  interests : List String := []
  concerns : Option (List String) := none

/-- A criterion definition as carried on each criterion value
(`cv.criterion` with its factor name inlined). -/
structure Criterion where
  name : String := ""
  isBenefit : Bool := true
  factorName : String := ""
  weightInFactor : ℝ := 0

/-- One criterion value row of a route, together with the fields the
pipeline adds in place (`normalizedValue`, `weight`, `weightedValue`). -/
structure CriterionValueRec where
  criterionId : String := ""
  criterion : Criterion := {}
  valueDecimal : ℝ := 0
  normalizedValue : ℝ := 0
  weight : ℝ := 0
  weightedValue : ℝ := 0

/-- A route record, together with the fields the pipeline adds in place
(`distanceToPositive`, `distanceToNegative`, `topsisScore`, `rank`).
A `topsisScore` of `none` models the JavaScript value `NaN`. -/
structure Route where
  id : String := ""
  name : String := ""
  mountainName : String := ""
  mountainLocation : String := ""
  difficulty : String := ""
  distance : ℝ := 0
  duration : ℝ := 0
  criterionValues : List CriterionValueRec := []
  distanceToPositive : ℝ := 0
  distanceToNegative : ℝ := 0
  topsisScore : Option ℝ := none
  rank : ℕ := 0

/-- A static factor weight row (`factorWeights` from the database, with the
factor name inlined). -/
structure FactorWeightRec where
  factorName : String := ""
  weight : ℝ := 0

/-- The criterion key used throughout the pipeline:
`cv.criterionId || cv.criterion.name`. -/
def keyOf (cv : CriterionValueRec) : String :=
  if cv.criterionId = "" then cv.criterion.name else cv.criterionId

/-! ## TOPSIS service: `calculateUserWeights`

The source mutates a three-entry record in four conditional steps and then
renormalizes; each step is modelled by one function so the intermediate
states can be reasoned about. -/

/-- The three factor weights, as rational numbers (the weight arithmetic of
the source uses only literals, addition, subtraction and division). -/
structure FactorWeights3 where
  physicalDemand : ℚ
  logisticsCost : ℚ
  experienceQuality : ℚ

/-- Baseline weights before any adjustment. -/
def baselineWeights : FactorWeights3 :=
  { physicalDemand := 0.33, logisticsCost := 0.33, experienceQuality := 0.34 }

/-- Experience-level adjustment: beginner and expert replace the triple. -/
def adjustExperience (p : UserPreferences) (w : FactorWeights3) : FactorWeights3 :=
  if p.experience_level = "beginner" then
    { physicalDemand := 0.2, logisticsCost := 0.5, experienceQuality := 0.3 }
  else if p.experience_level = "expert" then
    { physicalDemand := 0.5, logisticsCost := 0.2, experienceQuality := 0.3 }
  else w

/-- Budget adjustment for the two lowest budget buckets. -/
def adjustBudget (p : UserPreferences) (w : FactorWeights3) : FactorWeights3 :=
  if p.budget_range = "under_500k" ∨ p.budget_range = "500k_1m" then
    { physicalDemand := w.physicalDemand - 0.05
      logisticsCost := w.logisticsCost + 0.1
      experienceQuality := w.experienceQuality - 0.05 }
  else w

/-- Interest adjustment for `physical_challenge`. -/
def adjustChallenge (p : UserPreferences) (w : FactorWeights3) : FactorWeights3 :=
  if p.interests.contains "physical_challenge" then
    { physicalDemand := w.physicalDemand + 0.1
      logisticsCost := w.logisticsCost
      experienceQuality := w.experienceQuality - 0.1 }
  else w

/-- Interest adjustment for `scenic_views`. -/
def adjustScenic (p : UserPreferences) (w : FactorWeights3) : FactorWeights3 :=
  if p.interests.contains "scenic_views" then
    { physicalDemand := w.physicalDemand - 0.1
      logisticsCost := w.logisticsCost
      experienceQuality := w.experienceQuality + 0.1 }
  else w

/-- Sum of the three weights (the `total` of the source). -/
def weightsTotal (w : FactorWeights3) : ℚ :=
  w.physicalDemand + w.logisticsCost + w.experienceQuality

/-- Final renormalization: divide every weight by the running sum. -/
def normalizeWeights (w : FactorWeights3) : FactorWeights3 :=
  { physicalDemand := w.physicalDemand / weightsTotal w
    logisticsCost := w.logisticsCost / weightsTotal w
    experienceQuality := w.experienceQuality / weightsTotal w }

/-- The pre-normalization weights after the four adjustment steps. -/
def rawUserWeights (p : UserPreferences) : FactorWeights3 :=
  adjustScenic p (adjustChallenge p (adjustBudget p (adjustExperience p baselineWeights)))

/-- User preference weights (`calculateUserWeights`). -/
def calculateUserWeights (p : UserPreferences) : FactorWeights3 :=
  normalizeWeights (rawUserWeights p)

/-- The returned record viewed as a string-keyed lookup, as consumed by
`applyWeights` (`userWeights[factorName]`). -/
def userWeightsFun (w : FactorWeights3) : String → Option ℝ :=
  fun s =>
    if s = "Physical Demand" then some (w.physicalDemand : ℝ)
    else if s = "Logistics & Cost" then some (w.logisticsCost : ℝ)
    else if s = "Experience Quality" then some (w.experienceQuality : ℝ)
    else none

/-! ## TOPSIS service: `addDynamicCriteria` -/

/-- The key under which a mountain location is looked up:
`route.mountain.location.toLowerCase().split(',')[0].trim()`. -/
def mountainLocationKey (s : String) : String :=
  jsTrim (jsSplitCommaHead (jsToLower s))

/-- The `CostCalculationInput` assembled for a route inside
`addDynamicCriteria`. -/
def costInputFor (route : Route) (preferences : UserPreferences) :
    CostCalculationInput :=
  { userLocation := jsOrString preferences.location "jakarta"
    mountainLocation := mountainLocationKey route.mountainLocation
    routeDifficulty := route.difficulty
    duration := jsOrNum (some (jsCeil (route.duration / 24))) 1
    groupSize := jsOrNum (some preferences.group_size) 2
    needsGuide := preferences.experience_level = "beginner"
    needsEquipment := jsOrBool (preferences.concerns.map (fun c => c.contains "equipment")) false
    budgetLevel :=
      if preferences.budget_range = "under_500k" then .budget
      else if preferences.budget_range = "above_5m" then .premium
      else .standard }

/-- The Total Trip Cost criterion value appended to a route. -/
def costCriterionValue (route : Route) (preferences : UserPreferences) :
    CriterionValueRec :=
  { criterionId := "calculated_cost",
    criterion :=
      { name := "Total Trip Cost", isBenefit := false, factorName := "Logistics & Cost", weightInFactor := 0.6 },
    valueDecimal := (calculateTripCost (costInputFor route preferences)).total }

/-- The Accessibility Score criterion value appended to a route:
`max(1, 6 - distance / 100)` over the transport distance from the user
location (default `jakarta`) to the mountain location. -/
def accessibilityCriterionValue (route : Route) (preferences : UserPreferences) :
    CriterionValueRec :=
  { criterionId := "accessibility_score",
    criterion :=
      { name := "Accessibility Score", isBenefit := true, factorName := "Logistics & Cost", weightInFactor := 0.4 },
    valueDecimal := max 1 (6 - calculateTransportDistance
      (jsOrString preferences.location "jakarta")
      (mountainLocationKey route.mountainLocation) / 100) }

/-- The per-route body of `addDynamicCriteria`. -/
def augmentRoute (preferences : UserPreferences) (route : Route) : Route :=
  { route with
    criterionValues := route.criterionValues ++
      [costCriterionValue route preferences,
        accessibilityCriterionValue route preferences] }

/-- Dynamic criteria augmentation (`addDynamicCriteria`): appends the
computed Total Trip Cost and Accessibility Score to every route. -/
def addDynamicCriteria (routes : List Route) (preferences : UserPreferences) :
    List Route :=
  routes.map (augmentRoute preferences)

/-! ## TOPSIS service: matrix pipeline -/

/-- The raw value a route contributes to a criterion column:
`criterionValue ? parseFloat(criterionValue.valueDecimal) : 0`. -/
def valueOf (route : Route) (k : String) : ℝ :=
  match route.criterionValues.find? (fun cv => keyOf cv = k) with
  | some cv => cv.valueDecimal
  | none => 0

/-- Column normalizer: the Euclidean norm of the criterion column
(`normalizationFactors[criterionKey]`). -/
def normalizationFactor (routes : List Route) (k : String) : ℝ :=
  Real.sqrt ((routes.map (fun route => valueOf route k * valueOf route k)).sum)

/-- One route of `normalizeMatrix`: each criterion value is divided by the
column normalizer, `0` when the normalizer is not positive. -/
def normalizeRoute (routes : List Route) (route : Route) : Route :=
  { route with
    criterionValues := route.criterionValues.map fun cv =>
      let nf := normalizationFactor routes (keyOf cv)
      { cv with normalizedValue := if nf > 0 then cv.valueDecimal / nf else 0 } }

/-- Vector normalization of the decision matrix (`normalizeMatrix`). -/
def normalizeMatrix (routes : List Route) : List Route :=
  routes.map (normalizeRoute routes)

/-- One route of `applyWeights`: `totalWeight` is the product of the static
factor weight (`|| 0.33`), the user weight (`|| 0.33`) and the criterion
weight inside its factor. -/
def weightRoute (factorWeights : List FactorWeightRec)
    (userWeights : String → Option ℝ) (route : Route) : Route :=
  { route with
    criterionValues := route.criterionValues.map fun cv =>
      let factorWeight := jsOrNum
        ((factorWeights.find? (fun fw => fw.factorName = cv.criterion.factorName)).map
          (fun fw => fw.weight)) 0.33
      let userWeight := jsOrNum (userWeights cv.criterion.factorName) 0.33
      let totalWeight := factorWeight * userWeight * cv.criterion.weightInFactor
      { cv with weight := totalWeight, weightedValue := cv.normalizedValue * totalWeight } }

/-- Weighting of the normalized matrix (`applyWeights`). -/
def applyWeights (routes : List Route) (factorWeights : List FactorWeightRec)
    (userWeights : String → Option ℝ) : List Route :=
  routes.map (weightRoute factorWeights userWeights)

/-- The per-route entry collected for one criterion column inside
`findIdealSolutions`: `{ weightedValue: cv?.weightedValue || 0,
isBenefit: cv?.criterion.isBenefit || true }`.  Note that `b || true` is
`true` for every boolean `b`. -/
def idealEntryFor (route : Route) (k : String) : ℝ × Bool :=
  let cv := route.criterionValues.find? (fun c => keyOf c = k)
  (jsOrNum (cv.map (fun c => c.weightedValue)) 0,
    jsOrBool (cv.map (fun c => c.criterion.isBenefit)) true)

/-- The positive and negative ideal of one criterion column, following the
source: `isBenefit = criterionValues[0]?.isBenefit || true`, then max/min
for benefit columns and min/max for cost columns. -/
def idealFor (routes : List Route) (k : String) : ℝ × ℝ :=
  let criterionValues := routes.map (fun route => idealEntryFor route k)
  let weightedValues := criterionValues.map (fun e => e.1)
  let isBenefit := jsOrBool ((criterionValues.head?).map (fun e => e.2)) true
  if isBenefit then (listMax weightedValues, listMin weightedValues)
  else (listMin weightedValues, listMax weightedValues)

/-- Ideal and anti-ideal solutions (`findIdealSolutions`), as string-keyed
lookups `positiveIdeal` and `negativeIdeal`. -/
def findIdealSolutions (routes : List Route) : (String → ℝ) × (String → ℝ) :=
  (fun k => (idealFor routes k).1, fun k => (idealFor routes k).2)

/-- One route of `calculateDistances`: Euclidean distances to the two ideal
vectors over the route's own criterion values, and the TOPSIS score
`distanceToNegative / (distanceToPositive + distanceToNegative)`.  When both
distances are zero the JavaScript division is `0 / 0 = NaN`, modelled as
`none`. -/
def distRoute (positiveIdeal negativeIdeal : String → ℝ) (route : Route) : Route :=
  let distanceToPositive := Real.sqrt
    ((route.criterionValues.map fun cv =>
      (cv.weightedValue - positiveIdeal (keyOf cv)) *
        (cv.weightedValue - positiveIdeal (keyOf cv))).sum)
  let distanceToNegative := Real.sqrt
    ((route.criterionValues.map fun cv =>
      (cv.weightedValue - negativeIdeal (keyOf cv)) *
        (cv.weightedValue - negativeIdeal (keyOf cv))).sum)
  { route with
    distanceToPositive := distanceToPositive
    distanceToNegative := distanceToNegative
    topsisScore :=
      if distanceToPositive + distanceToNegative = 0 then none
      else some (distanceToNegative / (distanceToPositive + distanceToNegative)) }

/-- Distance and score computation (`calculateDistances`). -/
def calculateDistances (routes : List Route)
    (positiveIdeal negativeIdeal : String → ℝ) : List Route :=
  routes.map (distRoute positiveIdeal negativeIdeal)

/-- The sort comparator `(a, b) => b.topsisScore - a.topsisScore`, as the
boolean relation "`a` may come before `b`".  A comparison involving `NaN`
returns `NaN`, which `Array.prototype.sort` treats as `0` (a tie). -/
def scoreLe (a b : Route) : Bool :=
  match a.topsisScore, b.topsisScore with
  | some x, some y => decide (y ≤ x)
  | _, _ => true

/-- Rank assignment after sorting: `rank = index + 1`. -/
def assignRanks (l : List Route) : List Route :=
  l.enum.map fun p => { p.2 with rank := p.1 + 1 }

/-- Steps 4 to 7 of `runTopsisAnalysis`: normalize, weight, find ideals,
compute distances and scores. -/
def topsisScored (routes : List Route) (factorWeights : List FactorWeightRec)
    (userWeights : String → Option ℝ) : List Route :=
  let normalizedRoutes := normalizeMatrix routes
  let weightedRoutes := applyWeights normalizedRoutes factorWeights userWeights
  let ideals := findIdealSolutions weightedRoutes
  calculateDistances weightedRoutes ideals.1 ideals.2

/-- Steps 4 to 8 of `runTopsisAnalysis`: score, then sort descending by
TOPSIS score (`Array.prototype.sort` is stable, modelled by `mergeSort`)
and assign 1-based ranks. -/
def topsisRank (routes : List Route) (factorWeights : List FactorWeightRec)
    (userWeights : String → Option ℝ) : List Route :=
  assignRanks (List.mergeSort (topsisScored routes factorWeights userWeights) scoreLe)

/-- The route-level computation underlying `topsisScored`:
`topsisScored routes fw uw = routes.map (scoreRoute routes fw uw)`. -/
def scoreRoute (routes : List Route) (factorWeights : List FactorWeightRec)
    (userWeights : String → Option ℝ) (route : Route) : Route :=
  let ideals := findIdealSolutions (applyWeights (normalizeMatrix routes)
    factorWeights userWeights)
  distRoute ideals.1 ideals.2
    (weightRoute factorWeights userWeights (normalizeRoute routes route))

/-- Steps 2 to 8 of `runTopsisAnalysis` on an in-memory catalog: augment the
routes with the dynamic criteria, compute the user weights, then run the
matrix pipeline. -/
def runTopsisAnalysisRoutes (routes : List Route)
    (factorWeights : List FactorWeightRec) (preferences : UserPreferences) :
    List Route :=
  topsisRank (addDynamicCriteria routes preferences) factorWeights
    (userWeightsFun (calculateUserWeights preferences))

/-! ## Concrete instances used to evaluate the model -/

/-- A cost-type criterion (lower is better), as used to probe
`findIdealSolutions`. -/
def c1CostCriterion : Criterion :=
  { name := "Total Trip Cost", isBenefit := false, factorName := "Logistics & Cost",
    weightInFactor := 0.6 }

/-- First probe route: weighted cost value 1. -/
def c1r1 : Route :=
  { id := "r1",
    criterionValues := [{ criterionId := "c", criterion := c1CostCriterion, weightedValue := 1 }] }

/-- Second probe route: weighted cost value 2. -/
def c1r2 : Route :=
  { id := "r2",
    criterionValues := [{ criterionId := "c", criterion := c1CostCriterion, weightedValue := 2 }] }

/-- A probe route for the dynamic-criteria augmentation. -/
def c6route : Route :=
  { id := "R", name := "Rinjani Summit", mountainLocation := "Lombok", difficulty := "Hard",
    duration := 72, criterionValues := [] }

/-- Probe preferences for the dynamic-criteria augmentation. -/
def c6prefs : UserPreferences :=
  { experience_level := "intermediate", budget_range := "1m_2m", location := "jakarta",
    group_size := 2 }

/-- The single augmented route produced from `c6route`. -/
def c6out : Route := (addDynamicCriteria [c6route] c6prefs).headD c6route

/-- A criterion value that is zero in the `z` column. -/
def c7zeroCV : CriterionValueRec := { criterionId := "z", valueDecimal := 0 }

/-- First probe route with an all-zero `z` column and a non-zero `w` column. -/
def c7route1 : Route :=
  { id := "a", criterionValues := [c7zeroCV, { criterionId := "w", valueDecimal := 3 }] }

/-- Second probe route with an all-zero `z` column. -/
def c7route2 : Route := { id := "b", criterionValues := [c7zeroCV] }

/-- A single static criterion value for the degenerate one-route catalog. -/
def c2cv : CriterionValueRec :=
  { criterionId := "scenic_value",
    criterion :=
      { name := "Scenic Value", isBenefit := true, factorName := "Experience Quality", weightInFactor := 1 },
    valueDecimal := 4 }

/-- A one-route catalog: the only route trivially equals every other route
on every criterion, so both ideal distances vanish. -/
def c2route : Route :=
  { id := "A", name := "Route A", mountainLocation := "Lombok", difficulty := "Hard",
    duration := 48, criterionValues := [c2cv] }

/-- Static factor weights for the degenerate run. -/
def c2fw : List FactorWeightRec :=
  [{ factorName := "Physical Demand", weight := 0.33 },
    { factorName := "Logistics & Cost", weight := 0.33 },
    { factorName := "Experience Quality", weight := 0.34 }]

/-- Preferences for the degenerate run. -/
def c2prefs : UserPreferences :=
  { experience_level := "intermediate", budget_range := "1m_2m", location := "jakarta",
    group_size := 2 }

/-- The full analysis output on the one-route catalog. -/
def c2out : List Route := runTopsisAnalysisRoutes [c2route] c2fw c2prefs

/-- The weighted form of the single augmented route of the degenerate
catalog. -/
def c2weighted : Route :=
  weightRoute c2fw (userWeightsFun (calculateUserWeights c2prefs))
    (normalizeRoute (addDynamicCriteria [c2route] c2prefs)
      (augmentRoute c2prefs c2route))

/-- A totally ordered comparator on defined scores (`NaN` read as `0`),
used to transfer the sorting lemmas to `scoreLe`, with which it agrees on
lists whose scores are all defined. -/
def scoreLeD (a b : Route) : Bool :=
  decide (b.topsisScore.getD 0 ≤ a.topsisScore.getD 0)

/-- Benefit criterion shared by all four routes of the mixed-score probe. -/
def c3crit : Criterion :=
  { name := "C", isBenefit := true, factorName := "F", weightInFactor := 1 }

/-- Benefit criterion carried only by the first and last probe route. -/
def c3critD : Criterion :=
  { name := "D", isBenefit := true, factorName := "F", weightInFactor := 1 }

/-- The shared criterion value (value 1 in column `c`). -/
def c3cvC : CriterionValueRec :=
  { criterionId := "c", criterion := c3crit, valueDecimal := 1 }

/-- Probe route `a`: columns `c` (1) and `d` (3). -/
def c3ra : Route :=
  { id := "a",
    criterionValues := [c3cvC, { criterionId := "d", criterion := c3critD, valueDecimal := 3 }] }

/-- Probe route `n1`: column `c` only; its score degenerates to `NaN`. -/
def c3n1 : Route := { id := "n1", criterionValues := [c3cvC] }

/-- Probe route `n2`: column `c` only; its score degenerates to `NaN`. -/
def c3n2 : Route := { id := "n2", criterionValues := [c3cvC] }

/-- Probe route `b`: columns `c` (1) and `d` (4). -/
def c3rb : Route :=
  { id := "b",
    criterionValues := [c3cvC, { criterionId := "d", criterion := c3critD, valueDecimal := 4 }] }

/-- Factor weights for the mixed-score probe. -/
def c3fw : List FactorWeightRec := [{ factorName := "F", weight := 1 }]

/-- User weights for the mixed-score probe. -/
def c3uw : String → Option ℝ := fun _ => some 1

/-- The four-route mixed-score input matrix. -/
def c3input : List Route := [c3ra, c3n1, c3n2, c3rb]

/-- The ranked output of the mixed-score probe. -/
def c3out : List Route := topsisRank c3input c3fw c3uw

/-- Expected weighted form of the shared criterion value. -/
def c3cvCW : CriterionValueRec :=
  { criterionId := "c", criterion := c3crit, valueDecimal := 1,
    normalizedValue := 1 / 2, weight := 1, weightedValue := 1 / 2 }

/-- Expected weighted form of a column-`d` criterion value. -/
def c3cvDW (v nv : ℝ) : CriterionValueRec :=
  { criterionId := "d", criterion := c3critD, valueDecimal := v,
    normalizedValue := nv, weight := 1, weightedValue := nv }

/-- Expected weighted probe route `a`. -/
def c3wa : Route := { id := "a", criterionValues := [c3cvCW, c3cvDW 3 (3 / 5)] }

/-- Expected weighted probe route `n1`. -/
def c3wn1 : Route := { id := "n1", criterionValues := [c3cvCW] }

/-- Expected weighted probe route `n2`. -/
def c3wn2 : Route := { id := "n2", criterionValues := [c3cvCW] }

/-- Expected weighted probe route `b`. -/
def c3wb : Route := { id := "b", criterionValues := [c3cvCW, c3cvDW 4 (4 / 5)] }

/-- The expected weighted matrix of the mixed-score probe. -/
def c3weightedList : List Route := [c3wa, c3wn1, c3wn2, c3wb]

/-- First benefit criterion of the monotonicity probe (weight share 1). -/
def c5crit1 : Criterion :=
  { name := "C1", isBenefit := true, factorName := "F", weightInFactor := 1 }

/-- Second benefit criterion of the monotonicity probe (weight share 4). -/
def c5crit2 : Criterion :=
  { name := "C2", isBenefit := true, factorName := "F", weightInFactor := 4 }

/-- A raw criterion value of the monotonicity probe. -/
def c5cv (k : String) (crit : Criterion) (v : ℝ) : CriterionValueRec :=
  { criterionId := k, criterion := crit, valueDecimal := v }

/-- A fully weighted criterion value of the monotonicity probe. -/
def c5wcv (k : String) (crit : Criterion) (v nv w wv : ℝ) : CriterionValueRec :=
  { criterionId := k, criterion := crit, valueDecimal := v,
    normalizedValue := nv, weight := w, weightedValue := wv }

/-- Probe route `A` before the increase: values (5, 5). -/
def c5ra : Route :=
  { id := "A", criterionValues := [c5cv "x" c5crit1 5, c5cv "y" c5crit2 5] }

/-- Probe route `A` after its benefit value in column `x` rises to 6. -/
def c5ra' : Route :=
  { id := "A", criterionValues := [c5cv "x" c5crit1 6, c5cv "y" c5crit2 5] }

/-- Probe route `B`: values (1, 6), unchanged between the two runs. -/
def c5rb : Route :=
  { id := "B", criterionValues := [c5cv "x" c5crit1 1, c5cv "y" c5crit2 6] }

/-- Probe route `C`: values (6, 0), unchanged between the two runs. -/
def c5rc : Route :=
  { id := "C", criterionValues := [c5cv "x" c5crit1 6, c5cv "y" c5crit2 0] }

/-- Factor weights of the monotonicity probe. -/
def c5fw : List FactorWeightRec := [{ factorName := "F", weight := 1 }]

/-- User weights of the monotonicity probe. -/
def c5uw : String → Option ℝ := fun _ => some 1

/-- The matrix before the increase. -/
def c5l : List Route := [c5ra, c5rb, c5rc]

/-- The matrix after the increase (only route `A` column `x` changed). -/
def c5l' : List Route := [c5ra', c5rb, c5rc]

/-- Expected weighted route `A` before (column norms `sqrt 62`, `sqrt 61`). -/
def c5wa : Route :=
  { id := "A", criterionValues :=
      [c5wcv "x" c5crit1 5 (5 / Real.sqrt 62) 1 (5 / Real.sqrt 62),
        c5wcv "y" c5crit2 5 (5 / Real.sqrt 61) 4 (20 / Real.sqrt 61)] }

/-- Expected weighted route `B` before. -/
def c5wb : Route :=
  { id := "B", criterionValues :=
      [c5wcv "x" c5crit1 1 (1 / Real.sqrt 62) 1 (1 / Real.sqrt 62),
        c5wcv "y" c5crit2 6 (6 / Real.sqrt 61) 4 (24 / Real.sqrt 61)] }

/-- Expected weighted route `C` before. -/
def c5wc : Route :=
  { id := "C", criterionValues :=
      [c5wcv "x" c5crit1 6 (6 / Real.sqrt 62) 1 (6 / Real.sqrt 62),
        c5wcv "y" c5crit2 0 0 4 0] }

/-- Expected weighted route `A` after (column norms `sqrt 73`, `sqrt 61`). -/
def c5wa' : Route :=
  { id := "A", criterionValues :=
      [c5wcv "x" c5crit1 6 (6 / Real.sqrt 73) 1 (6 / Real.sqrt 73),
        c5wcv "y" c5crit2 5 (5 / Real.sqrt 61) 4 (20 / Real.sqrt 61)] }

/-- Expected weighted route `B` after. -/
def c5wb' : Route :=
  { id := "B", criterionValues :=
      [c5wcv "x" c5crit1 1 (1 / Real.sqrt 73) 1 (1 / Real.sqrt 73),
        c5wcv "y" c5crit2 6 (6 / Real.sqrt 61) 4 (24 / Real.sqrt 61)] }

/-- Expected weighted route `C` after. -/
def c5wc' : Route :=
  { id := "C", criterionValues :=
      [c5wcv "x" c5crit1 6 (6 / Real.sqrt 73) 1 (6 / Real.sqrt 73),
        c5wcv "y" c5crit2 0 0 4 0] }


/-- The expected weighted matrix of the monotonicity probe before the
increase. -/
def c5wl : List Route := [c5wa, c5wb, c5wc]

/-- The expected weighted matrix of the monotonicity probe after the
increase. -/
def c5wl' : List Route := [c5wa', c5wb', c5wc']

/-- The normalized value a route carries for a criterion column, `0` when the
route has no value for the column. -/
def normalizedValueOf (route : Route) (k : String) : ℝ :=
  match route.criterionValues.find? (fun cv => keyOf cv = k) with
  | some cv => cv.normalizedValue
  | none => 0

/-- A route holding a single raw criterion value, used to probe one column of
the decision matrix. -/
def colRoute (k : String) (crit : Criterion) (v : ℝ) : Route :=
  { id := "r", criterionValues := [{ criterionId := k, criterion := crit, valueDecimal := v }] }

/-- A one-column decision matrix with the given raw values. -/
def colMatrix (k : String) (crit : Criterion) (vs : List ℝ) : List Route :=
  vs.map (colRoute k crit)

/-! ## Theorems -/

/-- The haversine distance from any point to itself is zero. -/
theorem haversineDistance_self (c : Coordinates) : haversineDistance c c = 0 := by
  simp [haversineDistance, toRadians, jsAtan2]

/-- Rounding zero gives zero. -/
theorem jsRound_zero : jsRound 0 = 0 := by
  rw [jsRound]
  norm_num

/-- The transport distance from a known location to itself is zero. -/
theorem calculateTransportDistance_self (k : String)
    (h : (LOCATION_COORDINATES (jsToLower k)).isSome = true) :
    calculateTransportDistance k k = 0 := by
  cases hc : LOCATION_COORDINATES (jsToLower k) with
  | none => rw [hc] at h; simp at h
  | some c => simp only [calculateTransportDistance, hc]; exact haversineDistance_self c

/-- C9: for every key of the `LOCATION_COORDINATES` table, the transport
distance from the location to itself is `0`. -/
theorem C9_distance_self_zero (k : String)
    (hk : k ∈ ["jakarta", "bandung", "yogyakarta", "surabaya", "bali",
      "lombok", "malang", "magelang"]) :
    calculateTransportDistance k k = 0 := by
  fin_cases hk <;> exact calculateTransportDistance_self _ (by decide)

/-- C9 witness: the concrete key `jakarta`. -/
theorem C9_distance_self_zero_witness :
    "jakarta" ∈ ["jakarta", "bandung", "yogyakarta", "surabaya", "bali",
        "lombok", "malang", "magelang"] ∧
      calculateTransportDistance "jakarta" "jakarta" = 0 :=
  ⟨by decide, C9_distance_self_zero "jakarta" (by decide)⟩

/-- C8: for a one-person, one-day, budget-level trip with neither guide nor
equipment, the cost breakdown has zero guide, equipment and accommodation
components, and the total is built from transportation, permits, meals and
the 10 percent miscellaneous buffer only. -/
theorem C8_cost_scenario (u m d : String) :
    calculateTripCost
        { userLocation := u, mountainLocation := m, routeDifficulty := d,
          duration := 1, groupSize := 1, needsGuide := false,
          needsEquipment := false, budgetLevel := .budget } =
      { transportation := jsRound (calculateTransportationCost u m 1),
        permits := jsRound (calculatePermitCost m d 1),
        guide := 0,
        accommodation := 0,
        meals := jsRound (calculateMealCost 1 1 .budget),
        equipment := 0,
        miscellaneous := jsRound ((calculateTransportationCost u m 1 +
          calculatePermitCost m d 1 + calculateMealCost 1 1 .budget) * 0.1),
        total := jsRound (calculateTransportationCost u m 1 +
          calculatePermitCost m d 1 + calculateMealCost 1 1 .budget +
          (calculateTransportationCost u m 1 + calculatePermitCost m d 1 +
            calculateMealCost 1 1 .budget) * 0.1) } := by
  have hg : calculateGuideCost d 1 1 false = 0 := by
    simp [calculateGuideCost]
  have ha : calculateAccommodationCost 1 1 .budget = 0 := by
    simp [calculateAccommodationCost]
  have he : calculateEquipmentCost false 1 1 d = 0 := by
    simp [calculateEquipmentCost]
  rw [calculateTripCost]
  simp only [hg, ha, he, add_zero, zero_add, jsRound_zero]

/-- C1: evaluating `findIdealSolutions` on two routes carrying a cost-type
criterion (`isBenefit = false`) with weighted values `1` and `2`.  Because
the source computes `isBenefit` as `cv?.criterion.isBenefit || true`, which
is `true` for every boolean, the benefit branch is always taken: the
positive ideal comes out as the maximum `2` and the negative ideal as the
minimum `1`, the opposite of what the specification states for cost
criteria. -/
theorem C1_cost_ideal_uses_max :
    c1CostCriterion.isBenefit = false ∧
    (findIdealSolutions [c1r1, c1r2]).1 "c" = 2 ∧
    (findIdealSolutions [c1r1, c1r2]).2 "c" = 1 := by
  have h1 : idealEntryFor c1r1 "c" = (1, true) := by
    simp [idealEntryFor, c1r1, c1CostCriterion, keyOf, jsOrNum, jsOrBool, List.find?]
  have h2 : idealEntryFor c1r2 "c" = (2, true) := by
    simp [idealEntryFor, c1r2, c1CostCriterion, keyOf, jsOrNum, jsOrBool, List.find?]
  refine ⟨rfl, ?_, ?_⟩ <;>
    · simp only [findIdealSolutions]
      rw [idealFor]
      simp only [List.map_cons, List.map_nil, h1, h2, List.head?]
      norm_num [jsOrBool, listMax, listMin, max_def, min_def]

/-- C4: the three factor weights returned by `calculateUserWeights` sum to
`1` within `1e-9` (in fact exactly) for every combination of experience
level, budget range and interests. -/
theorem C4_user_weights_sum_one (p : UserPreferences) :
    |weightsTotal (calculateUserWeights p) - 1| ≤ 1 / 1000000000 := by
  have h : weightsTotal (calculateUserWeights p) = 1 := by
    unfold calculateUserWeights normalizeWeights weightsTotal rawUserWeights
      adjustScenic adjustChallenge adjustBudget adjustExperience baselineWeights
    split_ifs <;> norm_num
  rw [h]
  norm_num

/-- C10: for every preference combination, each of the three factor weights
stays at or above `0.05` after every adjustment step (in particular strictly
positive, so the sign inversion the specification warns about never occurs),
the returned normalized weights are strictly positive, and the bound `0.05`
is attained (beginner, lowest budget bucket, scenic interest, no
physical-challenge interest). -/
theorem C10_weights_strictly_positive (p : UserPreferences) :
    (1 / 20 ≤ (adjustExperience p baselineWeights).physicalDemand ∧
      1 / 20 ≤ (adjustExperience p baselineWeights).logisticsCost ∧
      1 / 20 ≤ (adjustExperience p baselineWeights).experienceQuality ∧
      1 / 20 ≤ (adjustBudget p (adjustExperience p baselineWeights)).physicalDemand ∧
      1 / 20 ≤ (adjustBudget p (adjustExperience p baselineWeights)).logisticsCost ∧
      1 / 20 ≤ (adjustBudget p (adjustExperience p baselineWeights)).experienceQuality ∧
      1 / 20 ≤ (adjustChallenge p (adjustBudget p (adjustExperience p baselineWeights))).physicalDemand ∧
      1 / 20 ≤ (adjustChallenge p (adjustBudget p (adjustExperience p baselineWeights))).logisticsCost ∧
      1 / 20 ≤ (adjustChallenge p (adjustBudget p (adjustExperience p baselineWeights))).experienceQuality ∧
      1 / 20 ≤ (rawUserWeights p).physicalDemand ∧
      1 / 20 ≤ (rawUserWeights p).logisticsCost ∧
      1 / 20 ≤ (rawUserWeights p).experienceQuality) ∧
    (0 < (calculateUserWeights p).physicalDemand ∧
      0 < (calculateUserWeights p).logisticsCost ∧
      0 < (calculateUserWeights p).experienceQuality) ∧
    (∃ q : UserPreferences, (rawUserWeights q).physicalDemand = 1 / 20) := by
  refine ⟨?_, ?_, ?_⟩
  · unfold rawUserWeights adjustScenic adjustChallenge adjustBudget
      adjustExperience baselineWeights
    split_ifs <;> norm_num
  · unfold calculateUserWeights normalizeWeights weightsTotal rawUserWeights
      adjustScenic adjustChallenge adjustBudget adjustExperience baselineWeights
    split_ifs <;> norm_num
  · refine ⟨{ experience_level := "beginner", budget_range := "under_500k", interests := ["scenic_views"] }, ?_⟩
    unfold rawUserWeights adjustScenic adjustChallenge adjustBudget
      adjustExperience baselineWeights
    norm_num
    rw [if_neg (show ¬ ("physical_challenge" = "scenic_views") by decide)]
    norm_num

/-- C6: every route produced by `addDynamicCriteria` carries an
Accessibility Score criterion value with `isBenefit = true`,
`weightInFactor = 0.4`, factor Logistics & Cost, and value
`max 1 (6 - distanceKm / 100)`; there is no upper clamp, so at distance `0`
the value is `6`. -/
theorem C6_accessibility_score (routes : List Route)
    (preferences : UserPreferences) (r : Route)
    (hr : r ∈ addDynamicCriteria routes preferences) :
    ∃ cv ∈ r.criterionValues,
      cv.criterionId = "accessibility_score" ∧
      cv.criterion.isBenefit = true ∧
      cv.criterion.weightInFactor = 0.4 ∧
      cv.criterion.factorName = "Logistics & Cost" ∧
      cv.valueDecimal = max 1 (6 - calculateTransportDistance
        (jsOrString preferences.location "jakarta")
        (mountainLocationKey r.mountainLocation) / 100) ∧
      (calculateTransportDistance (jsOrString preferences.location "jakarta")
          (mountainLocationKey r.mountainLocation) = 0 →
        cv.valueDecimal = 6) := by
  rw [addDynamicCriteria] at hr
  obtain ⟨r0, hr0, rfl⟩ := List.mem_map.mp hr
  refine ⟨accessibilityCriterionValue r0 preferences, ?_, rfl, rfl, rfl, rfl, rfl, ?_⟩
  · rw [augmentRoute]
    simp
  · intro h
    have h0 : calculateTransportDistance (jsOrString preferences.location "jakarta")
        (mountainLocationKey r0.mountainLocation) = 0 := h
    show max 1 (6 - calculateTransportDistance (jsOrString preferences.location "jakarta")
      (mountainLocationKey r0.mountainLocation) / 100) = 6
    rw [h0]
    norm_num

/-- C6 witness: the augmented probe route. -/
theorem C6_accessibility_score_witness :
    c6out ∈ addDynamicCriteria [c6route] c6prefs ∧
    ∃ cv ∈ c6out.criterionValues,
      cv.criterionId = "accessibility_score" ∧
      cv.criterion.isBenefit = true ∧
      cv.criterion.weightInFactor = 0.4 ∧
      cv.criterion.factorName = "Logistics & Cost" ∧
      cv.valueDecimal = max 1 (6 - calculateTransportDistance
        (jsOrString c6prefs.location "jakarta")
        (mountainLocationKey c6out.mountainLocation) / 100) ∧
      (calculateTransportDistance (jsOrString c6prefs.location "jakarta")
          (mountainLocationKey c6out.mountainLocation) = 0 →
        cv.valueDecimal = 6) := by
  have hmem : c6out ∈ addDynamicCriteria [c6route] c6prefs := by
    rw [c6out, addDynamicCriteria]
    simp
  exact ⟨hmem, C6_accessibility_score [c6route] c6prefs c6out hmem⟩

/-- C7: when a criterion column is zero for every route, the column
normalizer is zero and the guarded normalization assigns normalized value
`0` to that criterion for every route (no division is attempted). -/
theorem C7_zero_column_normalizes_to_zero (routes : List Route) (k : String)
    (hz : ∀ r ∈ routes, ∀ cv ∈ r.criterionValues, keyOf cv = k → cv.valueDecimal = 0) :
    ∀ r ∈ normalizeMatrix routes, ∀ cv ∈ r.criterionValues, keyOf cv = k →
      cv.normalizedValue = 0 := by
  have hval : ∀ r ∈ routes, valueOf r k = 0 := by
    intro r hr
    rw [valueOf]
    cases hf : r.criterionValues.find? (fun cv => keyOf cv = k) with
    | none => rfl
    | some cv =>
      have hm := List.mem_of_find?_eq_some hf
      have hp := List.find?_some hf
      exact hz r hr cv hm (by simpa using hp)
  have hnf : normalizationFactor routes k = 0 := by
    rw [normalizationFactor]
    have hs : (routes.map (fun route => valueOf route k * valueOf route k)).sum = 0 := by
      apply List.sum_eq_zero
      intro x hx
      obtain ⟨r, hr, rfl⟩ := List.mem_map.mp hx
      rw [hval r hr]
      ring
    rw [hs, Real.sqrt_zero]
  intro r hr cv hcv hk
  rw [normalizeMatrix] at hr
  obtain ⟨r0, hr0, rfl⟩ := List.mem_map.mp hr
  rw [normalizeRoute] at hcv
  simp only [List.mem_map] at hcv
  obtain ⟨cv0, hcv0, rfl⟩ := hcv
  have hk0 : keyOf cv0 = k := hk
  show (if normalizationFactor routes (keyOf cv0) > 0 then
      cv0.valueDecimal / normalizationFactor routes (keyOf cv0) else 0) = 0
  rw [hk0, hnf]
  norm_num

/-- C7 witness: a two-route matrix whose `z` column is identically zero. -/
theorem C7_zero_column_witness :
    (∀ r ∈ [c7route1, c7route2], ∀ cv ∈ r.criterionValues, keyOf cv = "z" →
      cv.valueDecimal = 0) ∧
    (∀ r ∈ normalizeMatrix [c7route1, c7route2], ∀ cv ∈ r.criterionValues,
      keyOf cv = "z" → cv.normalizedValue = 0) := by
  have h : ∀ r ∈ [c7route1, c7route2], ∀ cv ∈ r.criterionValues, keyOf cv = "z" →
      cv.valueDecimal = 0 := by
    intro r hr cv hcv hk
    fin_cases hr
    · simp only [c7route1, List.mem_cons, List.not_mem_nil, or_false] at hcv
      rcases hcv with rfl | rfl
      · rfl
      · exact absurd hk (by simp [keyOf])
    · simp only [c7route2, List.mem_cons, List.not_mem_nil, or_false] at hcv
      subst hcv
      rfl
  exact ⟨h, C7_zero_column_normalizes_to_zero [c7route1, c7route2] "z" h⟩

/-- The `|| 0` coalescing applied to a present number is the identity. -/
theorem jsOrNum_some_zero (x : ℝ) : jsOrNum (some x) 0 = x := by
  rw [jsOrNum]
  split_ifs with h
  · exact h.symm
  · rfl

/-- Specification of the guarded score formula: the score is `NaN` exactly
when both distances vanish, and otherwise lies in `[0, 1]`. -/
theorem score_formula_spec (dp dn : ℝ) (hdp : 0 ≤ dp) (hdn : 0 ≤ dn) :
    ((if dp + dn = 0 then none else some (dn / (dp + dn))) = none ↔ dp + dn = 0) ∧
    ∀ s, (if dp + dn = 0 then none else some (dn / (dp + dn))) = (some s : Option ℝ) →
      0 ≤ s ∧ s ≤ 1 := by
  constructor
  · by_cases h : dp + dn = 0 <;> simp [h]
  · intro s hs
    by_cases h : dp + dn = 0
    · rw [if_pos h] at hs
      exact absurd hs (by simp)
    · rw [if_neg h] at hs
      have hpos : 0 < dp + dn := lt_of_le_of_ne (add_nonneg hdp hdn) (Ne.symm h)
      obtain rfl : dn / (dp + dn) = s := Option.some.inj hs
      refine ⟨div_nonneg hdn hpos.le, ?_⟩
      rw [div_le_one hpos]
      exact le_add_of_nonneg_left hdp

/-- Score specification of one scored route: the score is `NaN` exactly when
both ideal distances vanish, and otherwise lies in `[0, 1]`. -/
theorem distRoute_score_spec (p n : String → ℝ) (r : Route) :
    ((distRoute p n r).topsisScore = none ↔
      (distRoute p n r).distanceToPositive + (distRoute p n r).distanceToNegative = 0) ∧
    ∀ s, (distRoute p n r).topsisScore = some s → 0 ≤ s ∧ s ≤ 1 :=
  score_formula_spec _ _ (Real.sqrt_nonneg _) (Real.sqrt_nonneg _)

/-- Membership in the ranked output comes from membership in the scored
list, with only the `rank` field updated. -/
theorem mem_topsisRank (l : List Route) (fw : List FactorWeightRec)
    (uw : String → Option ℝ) (r : Route) (hr : r ∈ topsisRank l fw uw) :
    ∃ w k, w ∈ applyWeights (normalizeMatrix l) fw uw ∧
      r = { distRoute (findIdealSolutions (applyWeights (normalizeMatrix l) fw uw)).1
        (findIdealSolutions (applyWeights (normalizeMatrix l) fw uw)).2 w with rank := k } := by
  rw [topsisRank, assignRanks] at hr
  obtain ⟨⟨i, r0⟩, hmem, rfl⟩ := List.mem_map.mp hr
  have hr0 : r0 ∈ List.mergeSort (topsisScored l fw uw) scoreLe :=
    List.snd_mem_of_mem_enum hmem
  rw [List.mem_mergeSort, topsisScored, calculateDistances] at hr0
  obtain ⟨w, hw, rfl⟩ := List.mem_map.mp hr0
  exact ⟨w, i + 1, hw, rfl⟩

/-- C2 (amended): for every route in the output of the analysis, the TOPSIS
score, when defined, lies in `[0, 1]`; it is `NaN` (`none`) exactly when
`distanceToPositive + distanceToNegative = 0`, the all-routes-identical
degenerate case the source does not guard. -/
theorem C2_score_bounds (routes : List Route) (fw : List FactorWeightRec)
    (preferences : UserPreferences) (r : Route)
    (hr : r ∈ runTopsisAnalysisRoutes routes fw preferences) :
    (r.topsisScore = none ↔ r.distanceToPositive + r.distanceToNegative = 0) ∧
    ∀ s, r.topsisScore = some s → 0 ≤ s ∧ s ≤ 1 := by
  rw [runTopsisAnalysisRoutes] at hr
  obtain ⟨w, k, hw, rfl⟩ := mem_topsisRank _ _ _ _ hr
  exact distRoute_score_spec _ _ w

/-- C2 witness: the degenerate one-route catalog instantiates the amended
score specification. -/
theorem C2_score_bounds_witness :
    c2out.headD c2route ∈ runTopsisAnalysisRoutes [c2route] c2fw c2prefs ∧
    (((c2out.headD c2route).topsisScore = none ↔
        (c2out.headD c2route).distanceToPositive +
          (c2out.headD c2route).distanceToNegative = 0) ∧
      ∀ s, (c2out.headD c2route).topsisScore = some s → 0 ≤ s ∧ s ≤ 1) := by
  have hmem : c2out.headD c2route ∈ runTopsisAnalysisRoutes [c2route] c2fw c2prefs := by
    rw [c2out, runTopsisAnalysisRoutes, topsisRank, topsisScored, addDynamicCriteria,
      normalizeMatrix, applyWeights, calculateDistances]
    simp [assignRanks, List.enum]
  exact ⟨hmem, C2_score_bounds [c2route] c2fw c2prefs _ hmem⟩

/-- In a list of criterion values with pairwise distinct keys, every element
is found by its own key. -/
theorem find?_self_of_nodup_keys (l : List CriterionValueRec)
    (h : (l.map keyOf).Nodup) (cv : CriterionValueRec) (hcv : cv ∈ l) :
    l.find? (fun c => keyOf c = keyOf cv) = some cv := by
  induction l with
  | nil => cases hcv
  | cons a t ih =>
    rw [List.map_cons, List.nodup_cons] at h
    rcases List.mem_cons.mp hcv with rfl | hmem
    · exact List.find?_cons_of_pos _ (by simp)
    · have hne : ¬ (keyOf a = keyOf cv) := fun e =>
        h.1 (e ▸ List.mem_map_of_mem keyOf hmem)
      rw [List.find?_cons_of_neg _ (by simpa using hne)]
      exact ih h.2 hmem

/-- On a one-route weighted matrix with distinct criterion keys, both ideal
vectors coincide with the route itself, so both distances vanish and the
TOPSIS score is the unguarded `0 / 0`, that is `NaN`. -/
theorem singleton_scored_none (w : Route)
    (hkeys : (w.criterionValues.map keyOf).Nodup) :
    (distRoute (findIdealSolutions [w]).1 (findIdealSolutions [w]).2 w).topsisScore
      = none := by
  have hfind : ∀ cv ∈ w.criterionValues,
      w.criterionValues.find? (fun c => keyOf c = keyOf cv) = some cv :=
    find?_self_of_nodup_keys w.criterionValues hkeys
  have hideal : ∀ (cv : CriterionValueRec), cv ∈ w.criterionValues →
      (idealFor [w] (keyOf cv)).1 = cv.weightedValue ∧
      (idealFor [w] (keyOf cv)).2 = cv.weightedValue := by
    intro cv hcv
    rw [idealFor]
    simp only [List.map_cons, List.map_nil, idealEntryFor, hfind cv hcv, Option.map_some']
    rw [jsOrNum_some_zero]
    have hmax : ∀ x : ℝ, listMax [x] = x := fun x => rfl
    have hmin : ∀ x : ℝ, listMin [x] = x := fun x => rfl
    rw [hmax, hmin, ite_self]
    exact ⟨rfl, rfl⟩
  have hA : (w.criterionValues.map fun cv =>
      (cv.weightedValue - (findIdealSolutions [w]).1 (keyOf cv)) *
        (cv.weightedValue - (findIdealSolutions [w]).1 (keyOf cv))).sum = 0 := by
    apply List.sum_eq_zero
    intro x hx
    obtain ⟨cv, hcv, rfl⟩ := List.mem_map.mp hx
    have h1 : (findIdealSolutions [w]).1 (keyOf cv) = cv.weightedValue :=
      (hideal cv hcv).1
    rw [h1, sub_self, mul_zero]
  have hB : (w.criterionValues.map fun cv =>
      (cv.weightedValue - (findIdealSolutions [w]).2 (keyOf cv)) *
        (cv.weightedValue - (findIdealSolutions [w]).2 (keyOf cv))).sum = 0 := by
    apply List.sum_eq_zero
    intro x hx
    obtain ⟨cv, hcv, rfl⟩ := List.mem_map.mp hx
    have h2 : (findIdealSolutions [w]).2 (keyOf cv) = cv.weightedValue :=
      (hideal cv hcv).2
    rw [h2, sub_self, mul_zero]
  show (if Real.sqrt (w.criterionValues.map fun cv =>
        (cv.weightedValue - (findIdealSolutions [w]).1 (keyOf cv)) *
          (cv.weightedValue - (findIdealSolutions [w]).1 (keyOf cv))).sum +
      Real.sqrt (w.criterionValues.map fun cv =>
        (cv.weightedValue - (findIdealSolutions [w]).2 (keyOf cv)) *
          (cv.weightedValue - (findIdealSolutions [w]).2 (keyOf cv))).sum = 0 then none
      else some _) = none
  rw [hA, hB, Real.sqrt_zero, add_zero, if_pos rfl]

/-- C2 counterexample: on the one-route catalog every route is trivially
identical to every other on every criterion, and the first route of the
analysis output has `topsisScore = NaN` (modelled by `none`), refuting the
claim that the score is never `NaN` and always lies in `[0, 1]`. -/
theorem C2_counterexample :
    c2out.length = 1 ∧ (c2out.headD c2route).topsisScore = none := by
  have hone : runTopsisAnalysisRoutes [c2route] c2fw c2prefs =
      assignRanks (List.mergeSort
        [distRoute
          (findIdealSolutions (applyWeights (normalizeMatrix (addDynamicCriteria [c2route] c2prefs))
            c2fw (userWeightsFun (calculateUserWeights c2prefs)))).1
          (findIdealSolutions (applyWeights (normalizeMatrix (addDynamicCriteria [c2route] c2prefs))
            c2fw (userWeightsFun (calculateUserWeights c2prefs)))).2
          (weightRoute c2fw (userWeightsFun (calculateUserWeights c2prefs))
            (normalizeRoute (addDynamicCriteria [c2route] c2prefs)
              (augmentRoute c2prefs c2route)))] scoreLe) := by
    rfl
  set w := weightRoute c2fw (userWeightsFun (calculateUserWeights c2prefs))
    (normalizeRoute (addDynamicCriteria [c2route] c2prefs)
      (augmentRoute c2prefs c2route)) with hwdef
  have hweq : applyWeights (normalizeMatrix (addDynamicCriteria [c2route] c2prefs))
      c2fw (userWeightsFun (calculateUserWeights c2prefs)) = [w] := rfl
  rw [hweq] at hone
  have hkeys : (w.criterionValues.map keyOf).Nodup := by
    have hcvs : w.criterionValues.map keyOf =
        ["scenic_value", "calculated_cost", "accessibility_score"] := by
      rw [hwdef, weightRoute, normalizeRoute, augmentRoute, costCriterionValue,
        accessibilityCriterionValue, c2route, c2cv]
      simp [keyOf]
    rw [hcvs]
    decide
  have hscore := singleton_scored_none w hkeys
  constructor
  · rw [c2out, hone, List.mergeSort_singleton, assignRanks]
    rfl
  · rw [c2out, hone, List.mergeSort_singleton, assignRanks]
    exact hscore

/-- The scoring pipeline is the per-route map `scoreRoute` over the input. -/
theorem topsisScored_eq_map (l : List Route) (fw : List FactorWeightRec)
    (uw : String → Option ℝ) :
    topsisScored l fw uw = l.map (scoreRoute l fw uw) := by
  rw [topsisScored, normalizeMatrix, applyWeights, calculateDistances,
    List.map_map, List.map_map]
  rfl

/-- The TOPSIS score of a scored route depends only on its criterion
values. -/
theorem distRoute_score_congr (p n : String → ℝ) (a b : Route)
    (h : a.criterionValues = b.criterionValues) :
    (distRoute p n a).topsisScore = (distRoute p n b).topsisScore := by
  rw [distRoute, distRoute]
  simp only [h]

/-- Two routes with identical criterion values receive identical TOPSIS
scores from the pipeline. -/
theorem scoreRoute_score_congr (l : List Route) (fw : List FactorWeightRec)
    (uw : String → Option ℝ) (a b : Route)
    (h : a.criterionValues = b.criterionValues) :
    (scoreRoute l fw uw a).topsisScore = (scoreRoute l fw uw b).topsisScore := by
  rw [scoreRoute, scoreRoute]
  apply distRoute_score_congr
  rw [weightRoute, weightRoute, normalizeRoute, normalizeRoute]
  simp only [h]

/-- `scoreLeD` is transitive. -/
theorem scoreLeD_trans (a b c : Route) (hab : scoreLeD a b) (hbc : scoreLeD b c) :
    scoreLeD a c := by
  simp only [scoreLeD, decide_eq_true_eq] at *
  exact le_trans hbc hab

/-- `scoreLeD` is total. -/
theorem scoreLeD_total (a b : Route) : scoreLeD a b || scoreLeD b a := by
  simp only [scoreLeD, Bool.or_eq_true, decide_eq_true_eq]
  exact le_total _ _

/-- On routes with defined scores, the sort comparator agrees with
`scoreLeD`. -/
theorem scoreLe_eq_scoreLeD (a b : Route) (ha : (a.topsisScore).isSome = true)
    (hb : (b.topsisScore).isSome = true) : scoreLe a b = scoreLeD a b := by
  obtain ⟨x, hx⟩ := Option.isSome_iff_exists.mp ha
  obtain ⟨y, hy⟩ := Option.isSome_iff_exists.mp hb
  rw [scoreLe, scoreLeD, hx, hy]
  simp [decide_eq_decide]

/-- On routes whose scores are all `NaN`, the sort comparator is constantly
`true` (every comparison is a tie). -/
theorem scoreLe_of_none (a b : Route) (ha : a.topsisScore = none) :
    scoreLe a b = true := by
  rw [scoreLe, ha]

/-- Merge sort only consults the comparator on elements of the list. -/
theorem mergeSort_congr_on (l : List Route) (le₁ le₂ : Route → Route → Bool)
    (h : ∀ a ∈ l, ∀ b ∈ l, le₁ a b = le₂ a b) :
    l.mergeSort le₁ = l.mergeSort le₂ := by
  have hm := List.map_mergeSort (r := le₁) (s := le₂) (f := id) (l := l)
    (by simpa using h)
  simpa using hm

/-- C3 (amended): provided the scored routes have either all-defined or
all-`NaN` TOPSIS scores (mixing both can scramble the comparator, see the
counterexample), the ranked output is sorted in descending order of the
defined scores, carries 1-based ranks in sorted order, and any two routes
with identical criterion values receive equal scores and keep their input
order (stable tie-break). -/
theorem C3_ranking (l : List Route) (fw : List FactorWeightRec)
    (uw : String → Option ℝ)
    (h : (∀ r ∈ topsisScored l fw uw, (r.topsisScore).isSome = true) ∨
      (∀ r ∈ topsisScored l fw uw, r.topsisScore = none)) :
    (∀ i j : ℕ, ∀ hi : i < (topsisRank l fw uw).length,
      ∀ hj : j < (topsisRank l fw uw).length, i ≤ j → ∀ x y : ℝ,
      ((topsisRank l fw uw).get ⟨i, hi⟩).topsisScore = some x →
      ((topsisRank l fw uw).get ⟨j, hj⟩).topsisScore = some y → y ≤ x) ∧
    (∀ i : ℕ, ∀ hi : i < (topsisRank l fw uw).length,
      ((topsisRank l fw uw).get ⟨i, hi⟩).rank = i + 1) ∧
    (∀ xs ys zs : List Route, ∀ a b : Route,
      l = xs ++ a :: ys ++ b :: zs → a.criterionValues = b.criterionValues →
      (scoreRoute l fw uw a).topsisScore = (scoreRoute l fw uw b).topsisScore ∧
      List.Sublist [scoreRoute l fw uw a, scoreRoute l fw uw b]
        (List.mergeSort (topsisScored l fw uw) scoreLe)) := by
  have hlen : ∀ i, i < (topsisRank l fw uw).length →
      i < ((topsisScored l fw uw).mergeSort scoreLe).length := by
    intro i hi
    simpa [topsisRank, assignRanks] using hi
  have hgetScore : ∀ i (hi : i < (topsisRank l fw uw).length),
      ((topsisRank l fw uw).get ⟨i, hi⟩).topsisScore =
        (((topsisScored l fw uw).mergeSort scoreLe).get ⟨i, hlen i hi⟩).topsisScore := by
    intro i hi
    simp [topsisRank, assignRanks]
  refine ⟨?_, ?_, ?_⟩
  · intro i j hi hj hij x y hx hy
    rw [hgetScore i hi] at hx
    rw [hgetScore j hj] at hy
    simp only [List.get_eq_getElem] at hx hy
    rcases h with hall | hnone
    · have heq : (topsisScored l fw uw).mergeSort scoreLe =
          (topsisScored l fw uw).mergeSort scoreLeD :=
        mergeSort_congr_on _ _ _ (fun a ha b hb =>
          scoreLe_eq_scoreLeD a b (hall a ha) (hall b hb))
      rcases Nat.lt_or_ge i j with hlt | hge
      · have hsorted : List.Pairwise (fun p q => scoreLeD p q = true)
            ((topsisScored l fw uw).mergeSort scoreLeD) :=
          List.sorted_mergeSort scoreLeD_trans scoreLeD_total _
        rw [← heq] at hsorted
        have hrel := List.pairwise_iff_getElem.mp hsorted i j
          (hlen i hi) (hlen j hj) hlt
        rw [scoreLeD, decide_eq_true_eq, hx, hy] at hrel
        simpa using hrel
      · have hji : i = j := le_antisymm hij hge
        subst hji
        rw [hx] at hy
        simp_all
    · exfalso
      have hmem := List.mem_mergeSort.mp (List.getElem_mem (hlen i hi))
      rw [hnone _ hmem] at hx
      cases hx
  · intro i hi
    simp [topsisRank, assignRanks]
  · intro xs ys zs a b hdecomp hcvs
    have hscore_eq : (scoreRoute l fw uw a).topsisScore =
        (scoreRoute l fw uw b).topsisScore :=
      scoreRoute_score_congr l fw uw a b hcvs
    refine ⟨hscore_eq, ?_⟩
    have hsub : List.Sublist [scoreRoute l fw uw a, scoreRoute l fw uw b]
        (topsisScored l fw uw) := by
      have h1 : List.Sublist [scoreRoute l fw uw b]
          (List.map (scoreRoute l fw uw) (b :: zs)) := by
        rw [List.map_cons]
        exact List.Sublist.cons₂ _ (List.nil_sublist _)
      have h2 : List.Sublist [scoreRoute l fw uw a]
          (List.map (scoreRoute l fw uw) (xs ++ a :: ys)) := by
        rw [List.map_append, List.map_cons]
        exact List.sublist_append_of_sublist_right
          (List.Sublist.cons₂ _ (List.nil_sublist _))
      have h4 : List.Sublist [scoreRoute l fw uw a, scoreRoute l fw uw b]
          (List.map (scoreRoute l fw uw) (xs ++ a :: ys ++ b :: zs)) := by
        rw [List.map_append]
        exact List.Sublist.append h2 h1
      rw [← hdecomp] at h4
      rw [topsisScored_eq_map]
      exact h4
    rcases h with hall | hnone
    · have heq : (topsisScored l fw uw).mergeSort scoreLe =
          (topsisScored l fw uw).mergeSort scoreLeD :=
        mergeSort_congr_on _ _ _ (fun p hp q hq =>
          scoreLe_eq_scoreLeD p q (hall p hp) (hall q hq))
      have hpair : List.Pairwise (fun p q => scoreLeD p q = true)
          [scoreRoute l fw uw a, scoreRoute l fw uw b] := by
        refine List.pairwise_cons.mpr ⟨?_, by simp⟩
        intro q hq
        rw [List.mem_singleton] at hq
        subst hq
        simp [scoreLeD, hscore_eq]
      rw [heq]
      exact List.sublist_mergeSort scoreLeD_trans scoreLeD_total hpair hsub
    · have heq : (topsisScored l fw uw).mergeSort scoreLe =
          (topsisScored l fw uw).mergeSort (fun _ _ => true) :=
        mergeSort_congr_on _ _ _ (fun p hp q hq => by
          rw [scoreLe_of_none p q (hnone p hp)])
      have hpair : List.Pairwise (fun p q => (fun (_ _ : Route) => true) p q = true)
          [scoreRoute l fw uw a, scoreRoute l fw uw b] := by
        simp
      rw [heq]
      exact List.sublist_mergeSort (fun _ _ _ _ _ => rfl) (fun _ _ => rfl) hpair hsub

/-- On the degenerate one-route catalog every scored route has score `NaN`. -/
theorem c2_scored_none :
    ∀ r ∈ topsisScored (addDynamicCriteria [c2route] c2prefs) c2fw
      (userWeightsFun (calculateUserWeights c2prefs)), r.topsisScore = none := by
  intro r hr
  have hform : topsisScored (addDynamicCriteria [c2route] c2prefs) c2fw
      (userWeightsFun (calculateUserWeights c2prefs)) =
      [distRoute (findIdealSolutions [c2weighted]).1
        (findIdealSolutions [c2weighted]).2 c2weighted] := rfl
  rw [hform, List.mem_singleton] at hr
  subst hr
  apply singleton_scored_none
  have hcvs : c2weighted.criterionValues.map keyOf =
      ["scenic_value", "calculated_cost", "accessibility_score"] := by
    rw [c2weighted, weightRoute, normalizeRoute, augmentRoute, costCriterionValue,
      accessibilityCriterionValue, c2route, c2cv]
    simp [keyOf]
  rw [hcvs]
  decide

/-- C3 witness: the degenerate one-route catalog (all scores `NaN`, the
right disjunct of the hypothesis) instantiates the ranking specification. -/
theorem C3_ranking_witness :
    ((∀ r ∈ topsisScored (addDynamicCriteria [c2route] c2prefs) c2fw
        (userWeightsFun (calculateUserWeights c2prefs)),
        (r.topsisScore).isSome = true) ∨
      (∀ r ∈ topsisScored (addDynamicCriteria [c2route] c2prefs) c2fw
        (userWeightsFun (calculateUserWeights c2prefs)), r.topsisScore = none)) ∧
    ((∀ i j : ℕ,
      ∀ hi : i < (topsisRank (addDynamicCriteria [c2route] c2prefs) c2fw
        (userWeightsFun (calculateUserWeights c2prefs))).length,
      ∀ hj : j < (topsisRank (addDynamicCriteria [c2route] c2prefs) c2fw
        (userWeightsFun (calculateUserWeights c2prefs))).length, i ≤ j → ∀ x y : ℝ,
      ((topsisRank (addDynamicCriteria [c2route] c2prefs) c2fw
        (userWeightsFun (calculateUserWeights c2prefs))).get ⟨i, hi⟩).topsisScore = some x →
      ((topsisRank (addDynamicCriteria [c2route] c2prefs) c2fw
        (userWeightsFun (calculateUserWeights c2prefs))).get ⟨j, hj⟩).topsisScore = some y →
      y ≤ x) ∧
    (∀ i : ℕ, ∀ hi : i < (topsisRank (addDynamicCriteria [c2route] c2prefs) c2fw
        (userWeightsFun (calculateUserWeights c2prefs))).length,
      ((topsisRank (addDynamicCriteria [c2route] c2prefs) c2fw
        (userWeightsFun (calculateUserWeights c2prefs))).get ⟨i, hi⟩).rank = i + 1) ∧
    (∀ xs ys zs : List Route, ∀ a b : Route,
      addDynamicCriteria [c2route] c2prefs = xs ++ a :: ys ++ b :: zs →
      a.criterionValues = b.criterionValues →
      (scoreRoute (addDynamicCriteria [c2route] c2prefs) c2fw
        (userWeightsFun (calculateUserWeights c2prefs)) a).topsisScore =
        (scoreRoute (addDynamicCriteria [c2route] c2prefs) c2fw
          (userWeightsFun (calculateUserWeights c2prefs)) b).topsisScore ∧
      List.Sublist
        [scoreRoute (addDynamicCriteria [c2route] c2prefs) c2fw
          (userWeightsFun (calculateUserWeights c2prefs)) a,
          scoreRoute (addDynamicCriteria [c2route] c2prefs) c2fw
            (userWeightsFun (calculateUserWeights c2prefs)) b]
        (List.mergeSort (topsisScored (addDynamicCriteria [c2route] c2prefs) c2fw
          (userWeightsFun (calculateUserWeights c2prefs))) scoreLe))) :=
  ⟨Or.inr c2_scored_none,
    C3_ranking (addDynamicCriteria [c2route] c2prefs) c2fw
      (userWeightsFun (calculateUserWeights c2prefs)) (Or.inr c2_scored_none)⟩

/-- The `||` coalescing applied to a present non-zero number is the
identity. -/
theorem jsOrNum_some (x d : ℝ) (h : x ≠ 0) : jsOrNum (some x) d = x := by
  rw [jsOrNum]
  exact if_neg h

/-- A two-element merge sort keeps order when the first element may come
first. -/
theorem mergeSort_pair {α} (le : α → α → Bool) (w x : α) (hwx : le w x = true) :
    List.mergeSort [w, x] le = [w, x] := by
  rw [List.mergeSort]
  simp [List.mergeSort_singleton, List.merge, hwx]

/-- Evaluation of a four-element merge sort along the comparisons the
algorithm actually performs. -/
theorem mergeSort_four {α} (le : α → α → Bool) (w x y z : α)
    (hwx : le w x = true) (hyz : le y z = true) (hwy : le w y = true)
    (hxy : le x y = true) :
    List.mergeSort [w, x, y, z] le = [w, x, y, z] := by
  rw [List.mergeSort]
  simp only [List.splitInTwo_fst, List.splitInTwo_snd]
  norm_num
  rw [mergeSort_pair le w x hwx, mergeSort_pair le y z hyz]
  rw [List.merge, hwy, List.merge, hxy]
  simp [List.merge]

/-- Column `c` of the mixed-score probe normalizes by `sqrt 4 = 2`. -/
theorem c3_nf_c : normalizationFactor c3input "c" = 2 := by
  rw [normalizationFactor]
  have hv : (c3input.map fun route => valueOf route "c" * valueOf route "c").sum = 4 := by
    simp [c3input, c3ra, c3n1, c3n2, c3rb, valueOf, c3cvC, keyOf, List.find?]
    norm_num
  rw [hv, show (4 : ℝ) = 2 ^ 2 by norm_num, Real.sqrt_sq (by norm_num)]

/-- Column `d` of the mixed-score probe normalizes by `sqrt 25 = 5`. -/
theorem c3_nf_d : normalizationFactor c3input "d" = 5 := by
  rw [normalizationFactor]
  have hv : (c3input.map fun route => valueOf route "d" * valueOf route "d").sum = 25 := by
    simp [c3input, c3ra, c3n1, c3n2, c3rb, valueOf, c3cvC, c3crit, c3critD, keyOf, List.find?]
    norm_num
  rw [hv, show (25 : ℝ) = 5 ^ 2 by norm_num, Real.sqrt_sq (by norm_num)]

/-- The weighted matrix of the mixed-score probe. -/
theorem c3_weighted_eq :
    applyWeights (normalizeMatrix c3input) c3fw c3uw = c3weightedList := by
  rw [show normalizeMatrix c3input =
    [normalizeRoute c3input c3ra, normalizeRoute c3input c3n1,
      normalizeRoute c3input c3n2, normalizeRoute c3input c3rb] from rfl]
  rw [applyWeights]
  simp only [List.map_cons, List.map_nil]
  rw [c3weightedList]
  simp only [weightRoute, normalizeRoute, c3ra, c3n1, c3n2, c3rb, c3cvC,
    List.map_cons, List.map_nil, keyOf, c3crit, c3critD, c3fw, c3uw]
  norm_num [c3_nf_c, c3_nf_d, jsOrNum, List.find?, c3wa, c3wn1, c3wn2, c3wb,
    c3cvCW, c3cvDW, c3crit, c3critD]
  simp only [show (if ("c" : String) = "" then "C" else "c") = "c" from by simp,
    show (if ("d" : String) = "" then "D" else "d") = "d" from by simp]
  norm_num [c3_nf_c, c3_nf_d]

/-- Ideal values of column `c` of the mixed-score probe (all entries tie). -/
theorem c3_ideal_c :
    (findIdealSolutions c3weightedList).1 "c" = 1 / 2 ∧
    (findIdealSolutions c3weightedList).2 "c" = 1 / 2 := by
  constructor <;>
    · simp only [findIdealSolutions]
      rw [idealFor]
      simp [idealEntryFor, c3weightedList, c3wa, c3wn1, c3wn2, c3wb, c3cvCW,
        c3cvDW, keyOf, List.find?, jsOrNum, jsOrBool, listMax, listMin,
        c3crit, c3critD]

/-- Ideal values of column `d` of the mixed-score probe. -/
theorem c3_ideal_d :
    (findIdealSolutions c3weightedList).1 "d" = 4 / 5 ∧
    (findIdealSolutions c3weightedList).2 "d" = 0 := by
  constructor <;>
    · simp only [findIdealSolutions]
      rw [idealFor]
      simp [idealEntryFor, c3weightedList, c3wa, c3wn1, c3wn2, c3wb, c3cvCW,
        c3cvDW, keyOf, List.find?, jsOrNum, jsOrBool, listMax, listMin,
        c3crit, c3critD]
      norm_num [max_def, min_def]

/-- The scored list of the mixed-score probe. -/
theorem c3_scored_eq :
    topsisScored c3input c3fw c3uw =
      [distRoute (findIdealSolutions c3weightedList).1 (findIdealSolutions c3weightedList).2 c3wa,
        distRoute (findIdealSolutions c3weightedList).1 (findIdealSolutions c3weightedList).2 c3wn1,
        distRoute (findIdealSolutions c3weightedList).1 (findIdealSolutions c3weightedList).2 c3wn2,
        distRoute (findIdealSolutions c3weightedList).1 (findIdealSolutions c3weightedList).2 c3wb] := by
  rw [topsisScored, c3_weighted_eq, calculateDistances]
  rw [c3weightedList]
  simp only [List.map_cons, List.map_nil]

/-- Key reduction for the shared column. -/
theorem c3_key_c : (if ("c" : String) = "" then "C" else "c") = "c" := by simp

/-- Key reduction for the second column. -/
theorem c3_key_d : (if ("d" : String) = "" then "D" else "d") = "d" := by simp

/-- Probe route `a` scores `3/4`. -/
theorem c3_score_a :
    (distRoute (findIdealSolutions c3weightedList).1
      (findIdealSolutions c3weightedList).2 c3wa).topsisScore = some (3 / 4) := by
  have hA : (c3wa.criterionValues.map fun cv =>
      (cv.weightedValue - (findIdealSolutions c3weightedList).1 (keyOf cv)) *
        (cv.weightedValue - (findIdealSolutions c3weightedList).1 (keyOf cv))).sum = 1 / 25 := by
    simp only [c3wa, c3cvCW, c3cvDW, List.map_cons, List.map_nil, keyOf, c3crit, c3critD, c3_key_c, c3_key_d]
    norm_num [c3_ideal_c.1, c3_ideal_d.1]
  have hB : (c3wa.criterionValues.map fun cv =>
      (cv.weightedValue - (findIdealSolutions c3weightedList).2 (keyOf cv)) *
        (cv.weightedValue - (findIdealSolutions c3weightedList).2 (keyOf cv))).sum = 9 / 25 := by
    simp only [c3wa, c3cvCW, c3cvDW, List.map_cons, List.map_nil, keyOf, c3crit, c3critD, c3_key_c, c3_key_d]
    norm_num [c3_ideal_c.2, c3_ideal_d.2]
  rw [distRoute]
  simp only [hA, hB]
  rw [show (1 / 25 : ℝ) = (1 / 5) ^ 2 by norm_num, Real.sqrt_sq (by norm_num)]
  rw [show (9 / 25 : ℝ) = (3 / 5) ^ 2 by norm_num, Real.sqrt_sq (by norm_num)]
  rw [if_neg (by norm_num)]
  norm_num

/-- Probe route `b` scores `1`. -/
theorem c3_score_b :
    (distRoute (findIdealSolutions c3weightedList).1
      (findIdealSolutions c3weightedList).2 c3wb).topsisScore = some 1 := by
  have hA : (c3wb.criterionValues.map fun cv =>
      (cv.weightedValue - (findIdealSolutions c3weightedList).1 (keyOf cv)) *
        (cv.weightedValue - (findIdealSolutions c3weightedList).1 (keyOf cv))).sum = 0 := by
    simp only [c3wb, c3cvCW, c3cvDW, List.map_cons, List.map_nil, keyOf, c3crit, c3critD, c3_key_c, c3_key_d]
    norm_num [c3_ideal_c.1, c3_ideal_d.1]
  have hB : (c3wb.criterionValues.map fun cv =>
      (cv.weightedValue - (findIdealSolutions c3weightedList).2 (keyOf cv)) *
        (cv.weightedValue - (findIdealSolutions c3weightedList).2 (keyOf cv))).sum = 16 / 25 := by
    simp only [c3wb, c3cvCW, c3cvDW, List.map_cons, List.map_nil, keyOf, c3crit, c3critD, c3_key_c, c3_key_d]
    norm_num [c3_ideal_c.2, c3_ideal_d.2]
  rw [distRoute]
  simp only [hA, hB]
  rw [Real.sqrt_zero]
  rw [show (16 / 25 : ℝ) = (4 / 5) ^ 2 by norm_num, Real.sqrt_sq (by norm_num)]
  rw [if_neg (by norm_num)]
  norm_num

/-- Probe route `n1` scores `NaN`. -/
theorem c3_score_n1 :
    (distRoute (findIdealSolutions c3weightedList).1
      (findIdealSolutions c3weightedList).2 c3wn1).topsisScore = none := by
  have hA : (c3wn1.criterionValues.map fun cv =>
      (cv.weightedValue - (findIdealSolutions c3weightedList).1 (keyOf cv)) *
        (cv.weightedValue - (findIdealSolutions c3weightedList).1 (keyOf cv))).sum = 0 := by
    simp only [c3wn1, c3cvCW, List.map_cons, List.map_nil, keyOf, c3crit, c3_key_c]
    norm_num [c3_ideal_c.1]
  have hB : (c3wn1.criterionValues.map fun cv =>
      (cv.weightedValue - (findIdealSolutions c3weightedList).2 (keyOf cv)) *
        (cv.weightedValue - (findIdealSolutions c3weightedList).2 (keyOf cv))).sum = 0 := by
    simp only [c3wn1, c3cvCW, List.map_cons, List.map_nil, keyOf, c3crit, c3_key_c]
    norm_num [c3_ideal_c.2]
  rw [distRoute]
  simp only [hA, hB]
  rw [Real.sqrt_zero, add_zero, if_pos rfl]

/-- Probe route `n2` scores `NaN`. -/
theorem c3_score_n2 :
    (distRoute (findIdealSolutions c3weightedList).1
      (findIdealSolutions c3weightedList).2 c3wn2).topsisScore = none := by
  have hA : (c3wn2.criterionValues.map fun cv =>
      (cv.weightedValue - (findIdealSolutions c3weightedList).1 (keyOf cv)) *
        (cv.weightedValue - (findIdealSolutions c3weightedList).1 (keyOf cv))).sum = 0 := by
    simp only [c3wn2, c3cvCW, List.map_cons, List.map_nil, keyOf, c3crit, c3_key_c]
    norm_num [c3_ideal_c.1]
  have hB : (c3wn2.criterionValues.map fun cv =>
      (cv.weightedValue - (findIdealSolutions c3weightedList).2 (keyOf cv)) *
        (cv.weightedValue - (findIdealSolutions c3weightedList).2 (keyOf cv))).sum = 0 := by
    simp only [c3wn2, c3cvCW, List.map_cons, List.map_nil, keyOf, c3crit, c3_key_c]
    norm_num [c3_ideal_c.2]
  rw [distRoute]
  simp only [hA, hB]
  rw [Real.sqrt_zero, add_zero, if_pos rfl]

/-- C3 counterexample: on a four-route matrix where two routes have `NaN`
scores (their criterion columns are constant) and two routes have defined
scores `3/4` and `1`, the `NaN` comparator ties leave the output in input
order: position 0 carries score `3/4` while position 3 carries the larger
score `1`, so the output is not sorted in descending order of
`topsisScore`. -/
theorem C3_counterexample :
    c3out.length = 4 ∧
    (c3out.getD 0 c3ra).topsisScore = some (3 / 4) ∧
    (c3out.getD 3 c3ra).topsisScore = some 1 ∧
    ¬ ((1 : ℝ) ≤ 3 / 4) := by
  have hms : List.mergeSort (topsisScored c3input c3fw c3uw) scoreLe =
      [distRoute (findIdealSolutions c3weightedList).1 (findIdealSolutions c3weightedList).2 c3wa,
        distRoute (findIdealSolutions c3weightedList).1 (findIdealSolutions c3weightedList).2 c3wn1,
        distRoute (findIdealSolutions c3weightedList).1 (findIdealSolutions c3weightedList).2 c3wn2,
        distRoute (findIdealSolutions c3weightedList).1 (findIdealSolutions c3weightedList).2 c3wb] := by
    rw [c3_scored_eq]
    apply mergeSort_four
    · rw [scoreLe, c3_score_a, c3_score_n1]
    · rw [scoreLe, c3_score_n2, c3_score_b]
    · rw [scoreLe, c3_score_a, c3_score_n2]
    · rw [scoreLe, c3_score_n1, c3_score_n2]
  have hout : c3out =
      assignRanks
        [distRoute (findIdealSolutions c3weightedList).1 (findIdealSolutions c3weightedList).2 c3wa,
          distRoute (findIdealSolutions c3weightedList).1 (findIdealSolutions c3weightedList).2 c3wn1,
          distRoute (findIdealSolutions c3weightedList).1 (findIdealSolutions c3weightedList).2 c3wn2,
          distRoute (findIdealSolutions c3weightedList).1 (findIdealSolutions c3weightedList).2 c3wb] := by
    rw [c3out, topsisRank, hms]
  refine ⟨?_, ?_, ?_, by norm_num⟩
  · rw [hout]
    rfl
  · rw [hout]
    exact c3_score_a
  · rw [hout]
    exact c3_score_b

/-- Evaluation of `listMax` on three elements. -/
theorem listMax3 (a b c : ℝ) : listMax [a, b, c] = max (max a b) c := by
  simp [listMax, List.foldl]

/-- Evaluation of `listMin` on three elements. -/
theorem listMin3 (a b c : ℝ) : listMin [a, b, c] = min (min a b) c := by
  simp [listMin, List.foldl]

/-- Column `x` of the before-matrix normalizes by `sqrt 62`. -/
theorem c5_nf_x : normalizationFactor c5l "x" = Real.sqrt 62 := by
  rw [normalizationFactor]
  have hv : (c5l.map fun route => valueOf route "x" * valueOf route "x").sum = 62 := by
    simp [c5l, c5ra, c5rb, c5rc, valueOf, c5cv, keyOf, List.find?, c5crit1, c5crit2]
    norm_num
  rw [hv]

/-- Column `y` of the before-matrix normalizes by `sqrt 61`. -/
theorem c5_nf_y : normalizationFactor c5l "y" = Real.sqrt 61 := by
  rw [normalizationFactor]
  have hv : (c5l.map fun route => valueOf route "y" * valueOf route "y").sum = 61 := by
    simp [c5l, c5ra, c5rb, c5rc, valueOf, c5cv, keyOf, List.find?, c5crit1, c5crit2]
    norm_num
  rw [hv]

/-- Column `x` of the after-matrix normalizes by `sqrt 73`. -/
theorem c5_nf_x' : normalizationFactor c5l' "x" = Real.sqrt 73 := by
  rw [normalizationFactor]
  have hv : (c5l'.map fun route => valueOf route "x" * valueOf route "x").sum = 73 := by
    simp [c5l', c5ra', c5rb, c5rc, valueOf, c5cv, keyOf, List.find?, c5crit1, c5crit2]
    norm_num
  rw [hv]

/-- Column `y` of the after-matrix normalizes by `sqrt 61`. -/
theorem c5_nf_y' : normalizationFactor c5l' "y" = Real.sqrt 61 := by
  rw [normalizationFactor]
  have hv : (c5l'.map fun route => valueOf route "y" * valueOf route "y").sum = 61 := by
    simp [c5l', c5ra', c5rb, c5rc, valueOf, c5cv, keyOf, List.find?, c5crit1, c5crit2]
    norm_num
  rw [hv]

/-- Key reduction for column `x`. -/
theorem c5_key_x : (if ("x" : String) = "" then "C1" else "x") = "x" := by simp

/-- Key reduction for column `y`. -/
theorem c5_key_y : (if ("y" : String) = "" then "C2" else "y") = "y" := by simp

/-- Weighted probe route `A` before the increase. -/
theorem c5_wa_eq : weightRoute c5fw c5uw (normalizeRoute c5l c5ra) = c5wa := by
  have h62 : (0 : ℝ) < Real.sqrt 62 := Real.sqrt_pos.mpr (by norm_num)
  have h61 : (0 : ℝ) < Real.sqrt 61 := Real.sqrt_pos.mpr (by norm_num)
  rw [weightRoute, normalizeRoute]
  simp only [c5ra, c5cv, List.map_cons, List.map_nil, keyOf, c5crit1, c5crit2,
    c5_key_x, c5_key_y, c5_nf_x, c5_nf_y, gt_iff_lt, h62, h61, if_true,
    c5fw, c5uw, List.find?, jsOrNum]
  simp [c5wa, c5wcv, c5crit1, c5crit2]
  ring

/-- Weighted probe route `B` before the increase. -/
theorem c5_wb_eq : weightRoute c5fw c5uw (normalizeRoute c5l c5rb) = c5wb := by
  have h62 : (0 : ℝ) < Real.sqrt 62 := Real.sqrt_pos.mpr (by norm_num)
  have h61 : (0 : ℝ) < Real.sqrt 61 := Real.sqrt_pos.mpr (by norm_num)
  rw [weightRoute, normalizeRoute]
  simp only [c5rb, c5cv, List.map_cons, List.map_nil, keyOf, c5crit1, c5crit2,
    c5_key_x, c5_key_y, c5_nf_x, c5_nf_y, gt_iff_lt, h62, h61, if_true,
    c5fw, c5uw, List.find?, jsOrNum]
  simp [c5wb, c5wcv, c5crit1, c5crit2]
  ring

/-- Weighted probe route `C` before the increase. -/
theorem c5_wc_eq : weightRoute c5fw c5uw (normalizeRoute c5l c5rc) = c5wc := by
  have h62 : (0 : ℝ) < Real.sqrt 62 := Real.sqrt_pos.mpr (by norm_num)
  have h61 : (0 : ℝ) < Real.sqrt 61 := Real.sqrt_pos.mpr (by norm_num)
  rw [weightRoute, normalizeRoute]
  simp only [c5rc, c5cv, List.map_cons, List.map_nil, keyOf, c5crit1, c5crit2,
    c5_key_x, c5_key_y, c5_nf_x, c5_nf_y, gt_iff_lt, h62, h61, if_true,
    c5fw, c5uw, List.find?, jsOrNum]
  simp [c5wc, c5wcv, c5crit1, c5crit2]

/-- Weighted probe route `A` after the increase. -/
theorem c5_wa_eq' : weightRoute c5fw c5uw (normalizeRoute c5l' c5ra') = c5wa' := by
  have h73 : (0 : ℝ) < Real.sqrt 73 := Real.sqrt_pos.mpr (by norm_num)
  have h61 : (0 : ℝ) < Real.sqrt 61 := Real.sqrt_pos.mpr (by norm_num)
  rw [weightRoute, normalizeRoute]
  simp only [c5ra', c5cv, List.map_cons, List.map_nil, keyOf, c5crit1, c5crit2,
    c5_key_x, c5_key_y, c5_nf_x', c5_nf_y', gt_iff_lt, h73, h61, if_true,
    c5fw, c5uw, List.find?, jsOrNum]
  simp [c5wa', c5wcv, c5crit1, c5crit2]
  ring

/-- Weighted probe route `B` after the increase. -/
theorem c5_wb_eq' : weightRoute c5fw c5uw (normalizeRoute c5l' c5rb) = c5wb' := by
  have h73 : (0 : ℝ) < Real.sqrt 73 := Real.sqrt_pos.mpr (by norm_num)
  have h61 : (0 : ℝ) < Real.sqrt 61 := Real.sqrt_pos.mpr (by norm_num)
  rw [weightRoute, normalizeRoute]
  simp only [c5rb, c5cv, List.map_cons, List.map_nil, keyOf, c5crit1, c5crit2,
    c5_key_x, c5_key_y, c5_nf_x', c5_nf_y', gt_iff_lt, h73, h61, if_true,
    c5fw, c5uw, List.find?, jsOrNum]
  simp [c5wb', c5wcv, c5crit1, c5crit2]
  ring

/-- Weighted probe route `C` after the increase. -/
theorem c5_wc_eq' : weightRoute c5fw c5uw (normalizeRoute c5l' c5rc) = c5wc' := by
  have h73 : (0 : ℝ) < Real.sqrt 73 := Real.sqrt_pos.mpr (by norm_num)
  have h61 : (0 : ℝ) < Real.sqrt 61 := Real.sqrt_pos.mpr (by norm_num)
  rw [weightRoute, normalizeRoute]
  simp only [c5rc, c5cv, List.map_cons, List.map_nil, keyOf, c5crit1, c5crit2,
    c5_key_x, c5_key_y, c5_nf_x', c5_nf_y', gt_iff_lt, h73, h61, if_true,
    c5fw, c5uw, List.find?, jsOrNum]
  simp [c5wc', c5wcv, c5crit1, c5crit2]

theorem c5_weighted_eq :
    applyWeights (normalizeMatrix c5l) c5fw c5uw = c5wl := by
  rw [c5wl]
  rw [show normalizeMatrix c5l =
    [normalizeRoute c5l c5ra, normalizeRoute c5l c5rb, normalizeRoute c5l c5rc] from rfl]
  rw [applyWeights]
  simp only [List.map_cons, List.map_nil, c5_wa_eq, c5_wb_eq, c5_wc_eq]

theorem c5_weighted_eq' :
    applyWeights (normalizeMatrix c5l') c5fw c5uw = c5wl' := by
  rw [c5wl']
  rw [show normalizeMatrix c5l' =
    [normalizeRoute c5l' c5ra', normalizeRoute c5l' c5rb, normalizeRoute c5l' c5rc] from rfl]
  rw [applyWeights]
  simp only [List.map_cons, List.map_nil, c5_wa_eq', c5_wb_eq', c5_wc_eq']

theorem c5_ideal_x :
    (findIdealSolutions c5wl).1 "x" = 6 / Real.sqrt 62 ∧
    (findIdealSolutions c5wl).2 "x" = 1 / Real.sqrt 62 := by
  have h15 : (Real.sqrt 62)⁻¹ ≤ 5 / Real.sqrt 62 := by
    rw [inv_eq_one_div]; gcongr ; norm_num
  have h56 : (5 : ℝ) / Real.sqrt 62 ≤ 6 / Real.sqrt 62 := by gcongr ; norm_num
  have h16 : (Real.sqrt 62)⁻¹ ≤ 6 / Real.sqrt 62 := by
    rw [inv_eq_one_div]; gcongr ; norm_num
  refine ⟨?_, ?_⟩
  · simp only [findIdealSolutions]
    rw [idealFor]
    simp [idealEntryFor, c5wl, c5wa, c5wb, c5wc, c5wcv, keyOf, List.find?,
      jsOrNum_some_zero, jsOrBool, listMax, listMin, c5crit1, c5crit2]
    exact ⟨h56, h16⟩
  · simp only [findIdealSolutions]
    rw [idealFor]
    simp [idealEntryFor, c5wl, c5wa, c5wb, c5wc, c5wcv, keyOf, List.find?,
      jsOrNum_some_zero, jsOrBool, listMax, listMin, c5crit1, c5crit2]
    rw [min_eq_right h15, min_eq_left h16]

theorem c5_ideal_y :
    (findIdealSolutions c5wl).1 "y" = 24 / Real.sqrt 61 ∧
    (findIdealSolutions c5wl).2 "y" = 0 := by
  have h2024 : (20 : ℝ) / Real.sqrt 61 ≤ 24 / Real.sqrt 61 := by gcongr ; norm_num
  have h024 : (0 : ℝ) ≤ 24 / Real.sqrt 61 := by positivity
  have h020 : (0 : ℝ) ≤ 20 / Real.sqrt 61 := by positivity
  refine ⟨?_, ?_⟩
  · simp only [findIdealSolutions]
    rw [idealFor]
    simp [idealEntryFor, c5wl, c5wa, c5wb, c5wc, c5wcv, keyOf, List.find?,
      jsOrNum_some_zero, jsOrBool, listMax, listMin, c5crit1, c5crit2]
    rw [max_eq_right h2024, max_eq_left h024]
  · simp only [findIdealSolutions]
    rw [idealFor]
    simp [idealEntryFor, c5wl, c5wa, c5wb, c5wc, c5wcv, keyOf, List.find?,
      jsOrNum_some_zero, jsOrBool, listMax, listMin, c5crit1, c5crit2]
    exact ⟨h020, h024⟩

theorem c5_ideal_x' :
    (findIdealSolutions c5wl').1 "x" = 6 / Real.sqrt 73 ∧
    (findIdealSolutions c5wl').2 "x" = 1 / Real.sqrt 73 := by
  have h16 : (Real.sqrt 73)⁻¹ ≤ 6 / Real.sqrt 73 := by
    rw [inv_eq_one_div]; gcongr ; norm_num
  refine ⟨?_, ?_⟩
  · simp only [findIdealSolutions]
    rw [idealFor]
    simp [idealEntryFor, c5wl', c5wa', c5wb', c5wc', c5wcv, keyOf, List.find?,
      jsOrNum_some_zero, jsOrBool, listMax, listMin, c5crit1, c5crit2]
    exact h16
  · simp only [findIdealSolutions]
    rw [idealFor]
    simp [idealEntryFor, c5wl', c5wa', c5wb', c5wc', c5wcv, keyOf, List.find?,
      jsOrNum_some_zero, jsOrBool, listMax, listMin, c5crit1, c5crit2]
    exact h16

theorem c5_ideal_y' :
    (findIdealSolutions c5wl').1 "y" = 24 / Real.sqrt 61 ∧
    (findIdealSolutions c5wl').2 "y" = 0 := by
  have h2024 : (20 : ℝ) / Real.sqrt 61 ≤ 24 / Real.sqrt 61 := by gcongr ; norm_num
  have h024 : (0 : ℝ) ≤ 24 / Real.sqrt 61 := by positivity
  have h020 : (0 : ℝ) ≤ 20 / Real.sqrt 61 := by positivity
  refine ⟨?_, ?_⟩
  · simp only [findIdealSolutions]
    rw [idealFor]
    simp [idealEntryFor, c5wl', c5wa', c5wb', c5wc', c5wcv, keyOf, List.find?,
      jsOrNum_some_zero, jsOrBool, listMax, listMin, c5crit1, c5crit2]
    rw [max_eq_right h2024, max_eq_left h024]
  · simp only [findIdealSolutions]
    rw [idealFor]
    simp [idealEntryFor, c5wl', c5wa', c5wb', c5wc', c5wcv, keyOf, List.find?,
      jsOrNum_some_zero, jsOrBool, listMax, listMin, c5crit1, c5crit2]
    exact ⟨h020, h024⟩

theorem score_ratio_lt (dpA dnA dpB dnB : ℝ) (hpA : 0 ≤ dpA) (hnA : 0 < dnA)
    (hpB : 0 < dpB) (hnB : 0 ≤ dnB) (h : dnB * dpA < dnA * dpB) :
    dnB / (dpB + dnB) < dnA / (dpA + dnA) := by
  rw [div_lt_div_iff₀ (by linarith) (by linarith)]
  nlinarith

theorem c5_score_a :
    (distRoute (findIdealSolutions c5wl).1
      (findIdealSolutions c5wl).2 c5wa).topsisScore =
      some (Real.sqrt (25776 / 3782) /
        (Real.sqrt (1053 / 3782) + Real.sqrt (25776 / 3782))) := by
  have hA : (c5wa.criterionValues.map fun cv =>
      (cv.weightedValue - (findIdealSolutions c5wl).1 (keyOf cv)) *
        (cv.weightedValue - (findIdealSolutions c5wl).1 (keyOf cv))).sum
      = 1053 / 3782 := by
    simp only [c5wa, c5wcv, List.map_cons, List.map_nil, keyOf, c5crit1, c5crit2,
      c5_key_x, c5_key_y]
    rw [c5_ideal_x.1, c5_ideal_y.1]
    rw [div_sub_div_same, div_sub_div_same, div_mul_div_comm, div_mul_div_comm]
    rw [Real.mul_self_sqrt (by norm_num : (0:ℝ) ≤ 62),
      Real.mul_self_sqrt (by norm_num : (0:ℝ) ≤ 61)]
    norm_num
  have hB : (c5wa.criterionValues.map fun cv =>
      (cv.weightedValue - (findIdealSolutions c5wl).2 (keyOf cv)) *
        (cv.weightedValue - (findIdealSolutions c5wl).2 (keyOf cv))).sum
      = 25776 / 3782 := by
    simp only [c5wa, c5wcv, List.map_cons, List.map_nil, keyOf, c5crit1, c5crit2,
      c5_key_x, c5_key_y]
    rw [c5_ideal_x.2, c5_ideal_y.2]
    rw [div_sub_div_same, sub_zero, div_mul_div_comm, div_mul_div_comm]
    rw [Real.mul_self_sqrt (by norm_num : (0:ℝ) ≤ 62),
      Real.mul_self_sqrt (by norm_num : (0:ℝ) ≤ 61)]
    norm_num
  rw [distRoute]
  simp only [hA, hB]
  rw [if_neg (show ¬ (Real.sqrt (1053 / 3782) + Real.sqrt (25776 / 3782) = 0) from
    (by positivity : (0:ℝ) < Real.sqrt (1053 / 3782) + Real.sqrt (25776 / 3782)).ne')]

theorem c5_score_b :
    (distRoute (findIdealSolutions c5wl).1
      (findIdealSolutions c5wl).2 c5wb).topsisScore =
      some (Real.sqrt (576 / 61) /
        (Real.sqrt (25 / 62) + Real.sqrt (576 / 61))) := by
  have hA : (c5wb.criterionValues.map fun cv =>
      (cv.weightedValue - (findIdealSolutions c5wl).1 (keyOf cv)) *
        (cv.weightedValue - (findIdealSolutions c5wl).1 (keyOf cv))).sum
      = 25 / 62 := by
    simp only [c5wb, c5wcv, List.map_cons, List.map_nil, keyOf, c5crit1, c5crit2,
      c5_key_x, c5_key_y]
    rw [c5_ideal_x.1, c5_ideal_y.1]
    rw [div_sub_div_same, div_sub_div_same, div_mul_div_comm, div_mul_div_comm]
    rw [Real.mul_self_sqrt (by norm_num : (0:ℝ) ≤ 62),
      Real.mul_self_sqrt (by norm_num : (0:ℝ) ≤ 61)]
    norm_num
  have hB : (c5wb.criterionValues.map fun cv =>
      (cv.weightedValue - (findIdealSolutions c5wl).2 (keyOf cv)) *
        (cv.weightedValue - (findIdealSolutions c5wl).2 (keyOf cv))).sum
      = 576 / 61 := by
    simp only [c5wb, c5wcv, List.map_cons, List.map_nil, keyOf, c5crit1, c5crit2,
      c5_key_x, c5_key_y]
    rw [c5_ideal_x.2, c5_ideal_y.2]
    rw [div_sub_div_same, sub_zero, div_mul_div_comm, div_mul_div_comm]
    rw [Real.mul_self_sqrt (by norm_num : (0:ℝ) ≤ 62),
      Real.mul_self_sqrt (by norm_num : (0:ℝ) ≤ 61)]
    norm_num
  rw [distRoute]
  simp only [hA, hB]
  rw [if_neg (show ¬ (Real.sqrt (25 / 62) + Real.sqrt (576 / 61) = 0) from
    (by positivity : (0:ℝ) < Real.sqrt (25 / 62) + Real.sqrt (576 / 61)).ne')]

theorem c5_score_a' :
    (distRoute (findIdealSolutions c5wl').1
      (findIdealSolutions c5wl').2 c5wa').topsisScore =
      some (Real.sqrt (30725 / 4453) /
        (Real.sqrt (16 / 61) + Real.sqrt (30725 / 4453))) := by
  have hA : (c5wa'.criterionValues.map fun cv =>
      (cv.weightedValue - (findIdealSolutions c5wl').1 (keyOf cv)) *
        (cv.weightedValue - (findIdealSolutions c5wl').1 (keyOf cv))).sum
      = 16 / 61 := by
    simp only [c5wa', c5wcv, List.map_cons, List.map_nil, keyOf, c5crit1, c5crit2,
      c5_key_x, c5_key_y]
    rw [c5_ideal_x'.1, c5_ideal_y'.1]
    rw [div_sub_div_same, div_sub_div_same, div_mul_div_comm, div_mul_div_comm]
    rw [Real.mul_self_sqrt (by norm_num : (0:ℝ) ≤ 73),
      Real.mul_self_sqrt (by norm_num : (0:ℝ) ≤ 61)]
    norm_num
  have hB : (c5wa'.criterionValues.map fun cv =>
      (cv.weightedValue - (findIdealSolutions c5wl').2 (keyOf cv)) *
        (cv.weightedValue - (findIdealSolutions c5wl').2 (keyOf cv))).sum
      = 30725 / 4453 := by
    simp only [c5wa', c5wcv, List.map_cons, List.map_nil, keyOf, c5crit1, c5crit2,
      c5_key_x, c5_key_y]
    rw [c5_ideal_x'.2, c5_ideal_y'.2]
    rw [div_sub_div_same, sub_zero, div_mul_div_comm, div_mul_div_comm]
    rw [Real.mul_self_sqrt (by norm_num : (0:ℝ) ≤ 73),
      Real.mul_self_sqrt (by norm_num : (0:ℝ) ≤ 61)]
    norm_num
  rw [distRoute]
  simp only [hA, hB]
  rw [if_neg (show ¬ (Real.sqrt (16 / 61) + Real.sqrt (30725 / 4453) = 0) from
    (by positivity : (0:ℝ) < Real.sqrt (16 / 61) + Real.sqrt (30725 / 4453)).ne')]

theorem c5_score_b' :
    (distRoute (findIdealSolutions c5wl').1
      (findIdealSolutions c5wl').2 c5wb').topsisScore =
      some (Real.sqrt (576 / 61) /
        (Real.sqrt (25 / 73) + Real.sqrt (576 / 61))) := by
  have hA : (c5wb'.criterionValues.map fun cv =>
      (cv.weightedValue - (findIdealSolutions c5wl').1 (keyOf cv)) *
        (cv.weightedValue - (findIdealSolutions c5wl').1 (keyOf cv))).sum
      = 25 / 73 := by
    simp only [c5wb', c5wcv, List.map_cons, List.map_nil, keyOf, c5crit1, c5crit2,
      c5_key_x, c5_key_y]
    rw [c5_ideal_x'.1, c5_ideal_y'.1]
    rw [div_sub_div_same, div_sub_div_same, div_mul_div_comm, div_mul_div_comm]
    rw [Real.mul_self_sqrt (by norm_num : (0:ℝ) ≤ 73),
      Real.mul_self_sqrt (by norm_num : (0:ℝ) ≤ 61)]
    norm_num
  have hB : (c5wb'.criterionValues.map fun cv =>
      (cv.weightedValue - (findIdealSolutions c5wl').2 (keyOf cv)) *
        (cv.weightedValue - (findIdealSolutions c5wl').2 (keyOf cv))).sum
      = 576 / 61 := by
    simp only [c5wb', c5wcv, List.map_cons, List.map_nil, keyOf, c5crit1, c5crit2,
      c5_key_x, c5_key_y]
    rw [c5_ideal_x'.2, c5_ideal_y'.2]
    rw [div_sub_div_same, sub_zero, div_mul_div_comm, div_mul_div_comm]
    rw [Real.mul_self_sqrt (by norm_num : (0:ℝ) ≤ 73),
      Real.mul_self_sqrt (by norm_num : (0:ℝ) ≤ 61)]
    norm_num
  rw [distRoute]
  simp only [hA, hB]
  rw [if_neg (show ¬ (Real.sqrt (25 / 73) + Real.sqrt (576 / 61) = 0) from
    (by positivity : (0:ℝ) < Real.sqrt (25 / 73) + Real.sqrt (576 / 61)).ne')]

theorem c5_before_lt :
    Real.sqrt (576 / 61) / (Real.sqrt (25 / 62) + Real.sqrt (576 / 61)) <
      Real.sqrt (25776 / 3782) /
        (Real.sqrt (1053 / 3782) + Real.sqrt (25776 / 3782)) := by
  apply score_ratio_lt
  · exact Real.sqrt_nonneg _
  · positivity
  · positivity
  · exact Real.sqrt_nonneg _
  · rw [← Real.sqrt_mul (by norm_num : (0:ℝ) ≤ 576 / 61),
      ← Real.sqrt_mul (by norm_num : (0:ℝ) ≤ 25776 / 3782)]
    exact Real.sqrt_lt_sqrt (by norm_num) (by norm_num)

theorem c5_after_lt :
    Real.sqrt (30725 / 4453) / (Real.sqrt (16 / 61) + Real.sqrt (30725 / 4453)) <
      Real.sqrt (576 / 61) / (Real.sqrt (25 / 73) + Real.sqrt (576 / 61)) := by
  apply score_ratio_lt
  · exact Real.sqrt_nonneg _
  · positivity
  · positivity
  · exact Real.sqrt_nonneg _
  · rw [← Real.sqrt_mul (by norm_num : (0:ℝ) ≤ 30725 / 4453),
      ← Real.sqrt_mul (by norm_num : (0:ℝ) ≤ 576 / 61)]
    exact Real.sqrt_lt_sqrt (by norm_num) (by norm_num)

/-- C5 counterexample: raising route `A`'s raw value in the benefit column `x`
from 5 to 6 (all other raw values unchanged) drops `A` from strictly above
route `B` to strictly below it. -/
theorem C5_counterexample :
    c5crit1.isBenefit = true ∧
    valueOf c5ra "x" < valueOf c5ra' "x" ∧
    (∃ sA sB : ℝ,
      (scoreRoute c5l c5fw c5uw c5ra).topsisScore = some sA ∧
      (scoreRoute c5l c5fw c5uw c5rb).topsisScore = some sB ∧ sB < sA) ∧
    (∃ sA sB : ℝ,
      (scoreRoute c5l' c5fw c5uw c5ra').topsisScore = some sA ∧
      (scoreRoute c5l' c5fw c5uw c5rb).topsisScore = some sB ∧ sA < sB) := by
  refine ⟨rfl, ?_, ⟨_, _, ?_, ?_, c5_before_lt⟩, ⟨_, _, ?_, ?_, c5_after_lt⟩⟩
  · simp [valueOf, c5ra, c5ra', c5cv, keyOf, List.find?]
    norm_num
  · simp only [scoreRoute]
    rw [c5_weighted_eq, c5_wa_eq]
    exact c5_score_a
  · simp only [scoreRoute]
    rw [c5_weighted_eq, c5_wb_eq]
    exact c5_score_b
  · simp only [scoreRoute]
    rw [c5_weighted_eq', c5_wa_eq']
    exact c5_score_a'
  · simp only [scoreRoute]
    rw [c5_weighted_eq', c5_wb_eq']
    exact c5_score_b'

theorem valueOf_colRoute (k : String) (crit : Criterion) (v : ℝ) (hk : k ≠ "") :
    valueOf (colRoute k crit v) k = v := by
  rw [valueOf, colRoute]
  simp [keyOf, List.find?, hk]

theorem colMatrix_nf (k : String) (crit : Criterion) (vs : List ℝ) (hk : k ≠ "") :
    normalizationFactor (colMatrix k crit vs) k =
      Real.sqrt ((vs.map fun v => v * v).sum) := by
  rw [normalizationFactor, colMatrix, List.map_map]
  congr 1
  refine congrArg List.sum (List.map_congr_left fun v _ => ?_)
  simp [Function.comp, valueOf_colRoute k crit v hk]

theorem normalizedValueOf_colRoute (M : List Route) (k : String) (crit : Criterion)
    (v : ℝ) (hk : k ≠ "") :
    normalizedValueOf (normalizeRoute M (colRoute k crit v)) k =
      if normalizationFactor M k > 0 then v / normalizationFactor M k else 0 := by
  rw [normalizeRoute, colRoute, normalizedValueOf]
  simp [keyOf, List.find?, hk]

theorem sumsq_nonneg (vs : List ℝ) : 0 ≤ (vs.map fun v => v * v).sum := by
  apply List.sum_nonneg
  intro a ha
  rcases List.mem_map.mp ha with ⟨v, _, rfl⟩
  exact mul_self_nonneg v

theorem normGap_mono (x x' y R : ℝ) (hx0 : 0 ≤ x) (hxx : x ≤ x') (hy : 0 ≤ y)
    (hR : 0 ≤ R) (hS : 0 < x * x + (y * y + R)) :
    (x - y) / Real.sqrt (x * x + (y * y + R)) ≤
      (x' - y) / Real.sqrt (x' * x' + (y * y + R)) := by
  have hS' : 0 < x' * x' + (y * y + R) := by nlinarith
  have hsS : Real.sqrt (x * x + (y * y + R)) ≤ Real.sqrt (x' * x' + (y * y + R)) :=
    Real.sqrt_le_sqrt (by nlinarith)
  have hsP : 0 < Real.sqrt (x * x + (y * y + R)) := Real.sqrt_pos.mpr hS
  have hsP' : 0 < Real.sqrt (x' * x' + (y * y + R)) := Real.sqrt_pos.mpr hS'
  rw [div_le_div_iff₀ hsP hsP']
  rcases le_or_lt x' y with hx'y | hyx'
  · have h1 : (x - y) * Real.sqrt (x' * x' + (y * y + R)) ≤
        (x' - y) * Real.sqrt (x' * x' + (y * y + R)) :=
      mul_le_mul_of_nonneg_right (by linarith) hsP'.le
    have h2 : (x' - y) * Real.sqrt (x' * x' + (y * y + R)) ≤
        (x' - y) * Real.sqrt (x * x + (y * y + R)) :=
      mul_le_mul_of_nonpos_left hsS (by linarith)
    linarith
  · rcases le_or_lt x y with hxy | hyx
    · have h1 : (x - y) * Real.sqrt (x' * x' + (y * y + R)) ≤ 0 :=
        mul_nonpos_of_nonpos_of_nonneg (by linarith) hsP'.le
      have h2 : 0 ≤ (x' - y) * Real.sqrt (x * x + (y * y + R)) :=
        mul_nonneg (by linarith) hsP.le
      linarith
    · have h0x' : (0 : ℝ) ≤ x' := le_trans hy hyx'.le
      have hyy : y * y ≤ x * x' := mul_le_mul hyx.le hyx'.le hy hx0
      have hA : 0 ≤ (x' - x) * (2 * y * (x * x' - y * y)) :=
        mul_nonneg (by linarith) (mul_nonneg (by linarith) (by linarith))
      have hB : 0 ≤ (x' - x) * (R * (x + x' - 2 * y)) :=
        mul_nonneg (by linarith) (mul_nonneg hR (by linarith))
      have key : (x' - y) ^ 2 * (x * x + (y * y + R)) -
          (x - y) ^ 2 * (x' * x' + (y * y + R)) =
          (x' - x) * (2 * y * (x * x' - y * y)) + (x' - x) * (R * (x + x' - 2 * y)) := by
        ring
      have hsq : (x - y) ^ 2 * (x' * x' + (y * y + R)) ≤
          (x' - y) ^ 2 * (x * x + (y * y + R)) := by linarith
      calc (x - y) * Real.sqrt (x' * x' + (y * y + R))
          = Real.sqrt ((x - y) ^ 2 * (x' * x' + (y * y + R))) := by
            rw [Real.sqrt_mul (sq_nonneg _), Real.sqrt_sq (by linarith)]
        _ ≤ Real.sqrt ((x' - y) ^ 2 * (x * x + (y * y + R))) := Real.sqrt_le_sqrt hsq
        _ = (x' - y) * Real.sqrt (x * x + (y * y + R)) := by
            rw [Real.sqrt_mul (sq_nonneg _), Real.sqrt_sq (by linarith)]

/-- C5 amended: monotonicity does survive the normalization step.  Raising one
route's raw value in a column never decreases that route's normalized value
relative to any other route of the column. -/
theorem C5_amended (k : String) (crit : Criterion) (x x' y : ℝ) (rest : List ℝ)
    (hk : k ≠ "") (hx0 : 0 ≤ x) (hxx : x ≤ x') (hy : 0 ≤ y) :
    normalizedValueOf (normalizeRoute (colMatrix k crit (x :: y :: rest))
        (colRoute k crit x)) k -
      normalizedValueOf (normalizeRoute (colMatrix k crit (x :: y :: rest))
        (colRoute k crit y)) k ≤
    normalizedValueOf (normalizeRoute (colMatrix k crit (x' :: y :: rest))
        (colRoute k crit x')) k -
      normalizedValueOf (normalizeRoute (colMatrix k crit (x' :: y :: rest))
        (colRoute k crit y)) k := by
  have hR : 0 ≤ (rest.map fun v => v * v).sum := sumsq_nonneg rest
  rw [normalizedValueOf_colRoute _ _ _ _ hk, normalizedValueOf_colRoute _ _ _ _ hk,
    normalizedValueOf_colRoute _ _ _ _ hk, normalizedValueOf_colRoute _ _ _ _ hk]
  rw [colMatrix_nf _ _ _ hk, colMatrix_nf _ _ _ hk]
  simp only [List.map_cons, List.sum_cons]
  set R := (rest.map fun v => v * v).sum with hRdef
  by_cases hS : 0 < x * x + (y * y + R)
  · have hS' : 0 < x' * x' + (y * y + R) := by nlinarith
    rw [if_pos (Real.sqrt_pos.mpr hS), if_pos (Real.sqrt_pos.mpr hS),
      if_pos (Real.sqrt_pos.mpr hS'), if_pos (Real.sqrt_pos.mpr hS')]
    rw [div_sub_div_same, div_sub_div_same]
    exact normGap_mono x x' y R hx0 hxx hy hR hS
  · have hx00 : x = 0 := by nlinarith
    have hy0 : y = 0 := by nlinarith
    have hR0 : R = 0 := by nlinarith
    rw [if_neg (by simpa using hS), if_neg (by simpa using hS)]
    by_cases hS' : 0 < x' * x' + (y * y + R)
    · rw [if_pos (Real.sqrt_pos.mpr hS'), if_pos (Real.sqrt_pos.mpr hS')]
      rw [hy0]
      simp only [zero_div, sub_zero, sub_self]
      exact div_nonneg (hx00 ▸ hxx) (Real.sqrt_nonneg _)
    · rw [if_neg (by simpa using hS'), if_neg (by simpa using hS')]

theorem C5_amended_witness :
    ("x" : String) ≠ "" ∧ (0 : ℝ) ≤ 1 ∧ (1 : ℝ) ≤ 3 ∧ (0 : ℝ) ≤ 2 ∧
    (normalizedValueOf (normalizeRoute (colMatrix "x" c5crit1 [(1 : ℝ), 2])
        (colRoute "x" c5crit1 1)) "x" -
      normalizedValueOf (normalizeRoute (colMatrix "x" c5crit1 [(1 : ℝ), 2])
        (colRoute "x" c5crit1 2)) "x" ≤
    normalizedValueOf (normalizeRoute (colMatrix "x" c5crit1 [(3 : ℝ), 2])
        (colRoute "x" c5crit1 3)) "x" -
      normalizedValueOf (normalizeRoute (colMatrix "x" c5crit1 [(3 : ℝ), 2])
        (colRoute "x" c5crit1 2)) "x") :=
  ⟨by decide, by norm_num, by norm_num, by norm_num,
    C5_amended "x" c5crit1 1 3 2 [] (by decide) (by norm_num) (by norm_num) (by norm_num)⟩
